import Mathlib

/-!
Verification development for the HTML extractor runner
(`src/pkg/html_extractor/runner.py`).

The program loads HTML (literal string, file, or URL), renders it either
with a browser engine or with a static tolerant HTML parser, injects a
JSON payload of structural statistics, and writes the results out.

Shallow embedding conventions:
* The external HTML parser (BeautifulSoup with `html.parser`) is a
  collaborator, not repository code; its output is a DOM tree.  We embed
  the repository's own logic as functions on such trees (`Node`), so a
  quantifier over trees covers every document the tolerant parser can
  yield.  `html.parser` performs no tree normalisation (it never
  synthesises `html`/`body` wrappers), so documents without those
  elements are reachable inputs.
* Python exceptions are modelled with `Option`/`Except`.
* Machine-level concerns do not arise: counts are `Nat`, strings are
  Lean `String`s (Unicode scalar values; Python strings additionally
  allow lone surrogates, which none of the claims depend on).
-/

namespace HtmlExtractor

/-- A parsed DOM node, the shape of tree that BeautifulSoup's tolerant
`html.parser` builder produces: elements carry a tag name, an attribute
list and children; text nodes carry a string (`NavigableString`). -/
inductive Node where
  | elem (tag : String) (attrs : List (String × String)) (children : List Node)
  | text (s : String)
deriving Repr

/-- Top-level children of the parsed document (the soup's contents). -/
abbrev Doc := List Node

mutual
/-- Number of elements in a subtree (the node itself included) whose tag
name is in `names`: the length of `soup.find_all(names)` restricted to
one node. -/
def countTags (names : List String) : Node → Nat
  | .text _ => 0
  | .elem t _ cs => (if t ∈ names then 1 else 0) + countTagsList names cs

/-- `countTags` summed over a list of sibling nodes. -/
def countTagsList (names : List String) : List Node → Nat
  | [] => 0
  | n :: ns => countTags names n + countTagsList names ns
end

mutual
/-- First element (preorder / document order) with the given tag name in
a subtree, the node itself included — the search behind `soup.find`. -/
def findFirst (name : String) : Node → Option Node
  | .text _ => none
  | .elem t a cs => if t = name then some (.elem t a cs) else findFirstList name cs

/-- `findFirst` over sibling nodes in order; models `soup.<name>` /
`soup.find(name)` on the whole document. -/
def findFirstList (name : String) : List Node → Option Node
  | [] => none
  | n :: ns =>
    match findFirst name n with
    | some r => some r
    | none => findFirstList name ns
end

mutual
/-- Concatenation of all descendant text, in document order: bs4's
`Tag.text` / `get_text()`. -/
def textOf : Node → String
  | .text s => s
  | .elem _ _ cs => textOfList cs

/-- `textOf` over sibling nodes. -/
def textOfList : List Node → String
  | [] => ""
  | n :: ns => textOf n ++ textOfList ns
end

mutual
/-- Append `child` as the last child of the first (document-order)
element named `name`; `none` when no such element exists.  Models
`soup.find(name).append(child)` together with bs4's rule that any
existing Tag is truthy (`Tag.__bool__` returns `True`). -/
def appendToFirst (name : String) (child : Node) : Node → Option Node
  | .text _ => none
  | .elem t a cs =>
    if t = name then some (.elem t a (cs ++ [child]))
    else
      match appendToFirstList name child cs with
      | some cs2 => some (.elem t a cs2)
      | none => none

/-- `appendToFirst` over sibling nodes: the first subtree containing a
`name` element receives the child; the rest are unchanged. -/
def appendToFirstList (name : String) (child : Node) : List Node → Option (List Node)
  | [] => none
  | n :: ns =>
    match appendToFirst name child n with
    | some n2 => some (n2 :: ns)
    | none =>
      match appendToFirstList name child ns with
      | some ns2 => some (n :: ns2)
      | none => none
end

/-- `extraction_data["metadata"]` of `process_with_basic`. -/
structure Metadata where
  title : String
deriving Repr, DecidableEq

/-- `extraction_data["statistics"]` of `process_with_basic`. -/
structure Statistics where
  headings : Nat
  links : Nat
  images : Nat
  tables : Nat
  paragraphs : Nat
deriving Repr, DecidableEq

/-- The extraction mapping built by `process_with_basic`
(runner.py lines 188–198): metadata, statistics and the
`enhancementApplied` flag. -/
structure ExtractionData where
  metadata : Metadata
  statistics : Statistics
  enhancementApplied : Bool
deriving Repr, DecidableEq

/-- The heading tag-name list of runner.py line 191. -/
def headingNames : List String := ["h1", "h2", "h3", "h4", "h5", "h6"]

/-- Lines 188–198 of runner.py: title via `soup.title.text if soup.title
else ""` (an element's `text` is identical for present-but-empty and for
absent titles, so bs4 Tag truthiness is immaterial here), counts via
`len(soup.find_all(...))`, and `enhancementApplied = False`. -/
def extract_basic_data (doc : Doc) : ExtractionData :=
  { metadata :=
      { title :=
          match findFirstList "title" doc with
          | some t => textOf t
          | none => "" }
    statistics :=
      { headings := countTagsList headingNames doc
        links := countTagsList ["a"] doc
        images := countTagsList ["img"] doc
        tables := countTagsList ["table"] doc
        paragraphs := countTagsList ["p"] doc }
    enhancementApplied := false }

/-! ### Model of Python's `json.dumps` for the extraction mapping

`json.dumps` is called with default arguments (runner.py line 204), so
the item separator is `", "`, the key separator is `": "`, keys keep
insertion order, and `ensure_ascii=True` escapes every character outside
printable ASCII as `\uXXXX` (lowercase hex, surrogate pairs above
`0xFFFF`). -/

/-- Decimal digit character (`0`–`9`). -/
def digitChar (n : Nat) : Char := Char.ofNat (48 + n)

/-- Lowercase hexadecimal digit character, as produced by Python's
`'\u{0:04x}'` formatting. -/
def hexDigitChar (n : Nat) : Char :=
  if n < 10 then Char.ofNat (48 + n) else Char.ofNat (87 + n)

/-- Four lowercase hex digits of a value below `0x10000`. -/
def hex4 (n : Nat) : List Char :=
  [hexDigitChar (n / 4096 % 16), hexDigitChar (n / 256 % 16),
   hexDigitChar (n / 16 % 16), hexDigitChar (n % 16)]

/-- Accumulator loop of the decimal rendering of a `Nat`. -/
def natToDecAux (n : Nat) (acc : List Char) : List Char :=
  if h : n = 0 then acc else natToDecAux (n / 10) (digitChar (n % 10) :: acc)
termination_by n
decreasing_by exact Nat.div_lt_self (Nat.pos_of_ne_zero h) (by decide)

/-- Decimal rendering of a `Nat`, as Python serialises an `int`. -/
def natToDec (n : Nat) : List Char :=
  if n = 0 then ['0'] else natToDecAux n []

/-- Python `json.dumps` escape of one character with `ensure_ascii=True`
(the `ESCAPE_ASCII`/`ESCAPE_DCT` rules of the `json.encoder` module):
printable ASCII other than `"` and `\` is literal, the short escapes
cover `\b \t \n \f \r`, everything else becomes `\uXXXX`, with a
surrogate pair above `0xFFFF`. -/
def escChar (c : Char) : List Char :=
  if c = '\\' then ['\\', '\\']
  else if c = '"' then ['\\', '"']
  else if c = Char.ofNat 8 then ['\\', 'b']
  else if c = Char.ofNat 9 then ['\\', 't']
  else if c = Char.ofNat 10 then ['\\', 'n']
  else if c = Char.ofNat 12 then ['\\', 'f']
  else if c = Char.ofNat 13 then ['\\', 'r']
  else if c.toNat < 0x20 then '\\' :: 'u' :: hex4 c.toNat
  else if c.toNat ≤ 0x7e then [c]
  else if c.toNat < 0x10000 then '\\' :: 'u' :: hex4 c.toNat
  else
    ('\\' :: 'u' :: hex4 (0xd800 + (c.toNat - 0x10000) / 0x400)) ++
    ('\\' :: 'u' :: hex4 (0xdc00 + (c.toNat - 0x10000) % 0x400))

/-- `escChar` over a character list. -/
def escBody : List Char → List Char
  | [] => []
  | c :: cs => escChar c ++ escBody cs

/-- A serialised JSON string literal: quote, escaped body, quote. -/
def strLitChars (s : String) : List Char := '"' :: (escBody s.data ++ ['"'])

/-- Character list of `json.dumps(extraction_data)` for the mapping
built by `process_with_basic`: fixed keys in insertion order, `", "`
and `": "` separators, decimal counts, lowercase `false`/`true`. -/
def dumpsDataChars (d : ExtractionData) : List Char :=
  ("\x7b\"metadata\": \x7b\"title\": ").data ++ strLitChars d.metadata.title
  ++ ("\x7d, \"statistics\": \x7b\"headings\": ").data ++ natToDec d.statistics.headings
  ++ (", \"links\": ").data ++ natToDec d.statistics.links
  ++ (", \"images\": ").data ++ natToDec d.statistics.images
  ++ (", \"tables\": ").data ++ natToDec d.statistics.tables
  ++ (", \"paragraphs\": ").data ++ natToDec d.statistics.paragraphs
  ++ ("\x7d, \"enhancementApplied\": ").data
  ++ (if d.enhancementApplied then "true".data else "false".data)
  ++ ("\x7d").data

/-- `json.dumps(extraction_data)` as a string. -/
def dumpsData (d : ExtractionData) : String := String.mk (dumpsDataChars d)

/-- The synthesised element of runner.py lines 201–204:
`soup.new_tag("script")` with `id` then `type` set, and the serialised
extraction data as its single string child. -/
def script_tag (d : ExtractionData) : Node :=
  .elem "script" [("id", "html-extractor-data"), ("type", "application/json")]
    [.text (dumpsData d)]

/-- Lines 206–210 of runner.py: if the document has a `body` element
(bs4 Tags are truthy even when empty), append `tag` to the first one;
otherwise append a fresh empty `body` to the first `html` element and
append `tag` to it (`soup.body` re-resolves to that new element).  When
neither `body` nor `html` exists, `soup.html` is `None` and
`soup.html.append(...)` raises `AttributeError`, modelled as `none`. -/
def inject_script (doc : Doc) (tag : Node) : Option Doc :=
  match appendToFirstList "body" tag doc with
  | some d2 => some d2
  | none =>
    match appendToFirstList "html" (.elem "body" [] []) doc with
    | some d2 => appendToFirstList "body" tag d2
    | none => none

/-- Tree-level body of `process_with_basic` (runner.py lines 174–212):
compute the extraction mapping, synthesise the data script element,
inject it, and return the modified tree with the mapping.  `none` is the
`AttributeError` path of `inject_script`. -/
def process_with_basic_tree (doc : Doc) : Option (Doc × ExtractionData) :=
  let data := extract_basic_data doc
  match inject_script doc (script_tag data) with
  | some d2 => some (d2, data)
  | none => none

/-! ### Model of Python's `json.loads`

A recursive-descent parser for the JSON fragment exchanged by this
program: objects, arrays, strings, unsigned decimal integers, `true`,
`false`, `null`.  Restrictions against full `json.loads` that none of
the claims touch: floats and negative numbers are not parsed, and an
unpaired `\uXXXX` surrogate escape is rejected rather than producing a
lone-surrogate character (Lean strings hold Unicode scalar values only).
As in Python's strict mode, raw control characters inside string
literals are rejected, and trailing non-whitespace input fails the whole
parse. -/

/-- JSON values. -/
inductive Json where
  | str (s : String)
  | num (n : Nat)
  | bool (b : Bool)
  | null
  | arr (elems : List Json)
  | obj (fields : List (String × Json))
deriving Repr

/-- The left-brace character, `\x7b`. -/
def lbrace : Char := Char.ofNat 123

/-- The right-brace character, `\x7d`. -/
def rbrace : Char := Char.ofNat 125

/-- JSON insignificant whitespace. -/
def isJsonWs (c : Char) : Bool :=
  c = ' ' ∨ c = Char.ofNat 9 ∨ c = Char.ofNat 10 ∨ c = Char.ofNat 13

/-- Drop leading JSON whitespace. -/
def skipWs : List Char → List Char
  | [] => []
  | c :: rest => if isJsonWs c then skipWs rest else c :: rest

/-- Value of one hexadecimal digit (both cases accepted, as in Python's
`\uXXXX` handling). -/
def hexVal (c : Char) : Option Nat :=
  if '0' ≤ c ∧ c ≤ '9' then some (c.toNat - 48)
  else if 'a' ≤ c ∧ c ≤ 'f' then some (c.toNat - 87)
  else if 'A' ≤ c ∧ c ≤ 'F' then some (c.toNat - 55)
  else none

/-- Value of one decimal digit. -/
def digitVal (c : Char) : Option Nat :=
  if '0' ≤ c ∧ c ≤ '9' then some (c.toNat - 48) else none

/-- The value of four hexadecimal digit characters, most significant
first. -/
def hexVal4 (a b c d : Char) : Option Nat :=
  match hexVal a, hexVal b, hexVal c, hexVal d with
  | some x, some y, some z, some w => some (((x * 16 + y) * 16 + z) * 16 + w)
  | _, _, _, _ => none

/-- The two-character escapes of JSON strings (`\" \\ \/ \b \t \n \f
\r`), as the decoded character. -/
def escShort (e : Char) : Option Char :=
  if e = '"' then some '"'
  else if e = '\\' then some '\\'
  else if e = '/' then some '/'
  else if e = 'b' then some (Char.ofNat 8)
  else if e = 't' then some (Char.ofNat 9)
  else if e = 'n' then some (Char.ofNat 10)
  else if e = 'f' then some (Char.ofNat 12)
  else if e = 'r' then some (Char.ofNat 13)
  else none

/-- Outcome of reading one token inside a JSON string literal: the
closing quote, one decoded character, or a lexical error. -/
inductive StrTok where
  | done (rest : List Char)
  | ch (c : Char) (rest : List Char)
  | bad
deriving Repr

/-- Read one token of a JSON string body (Python strict mode): the
closing quote ends it; a backslash introduces a short escape or
`\uXXXX`, where a high surrogate must be followed by a low surrogate
and the pair combines (lone surrogates are rejected — Lean characters
are Unicode scalar values); raw control characters are rejected; any
other character stands for itself. -/
def strTok : List Char → StrTok
  | [] => .bad
  | c :: rest =>
    if c = '"' then .done rest
    else if c = '\\' then
      match rest with
      | [] => .bad
      | e :: rest2 =>
        match escShort e with
        | some ec => .ch ec rest2
        | none =>
          if e = 'u' then
            match rest2 with
            | h1 :: h2 :: h3 :: h4 :: rest3 =>
              match hexVal4 h1 h2 h3 h4 with
              | none => .bad
              | some n =>
                if n < 0xd800 then .ch (Char.ofNat n) rest3
                else if n ≤ 0xdbff then
                  match rest3 with
                  | s1 :: s2 :: m1 :: m2 :: m3 :: m4 :: rest4 =>
                    if s1 = '\\' then
                      if s2 = 'u' then
                        match hexVal4 m1 m2 m3 m4 with
                        | none => .bad
                        | some m =>
                          if 0xdc00 ≤ m ∧ m ≤ 0xdfff then
                            .ch (Char.ofNat (0x10000 + (n - 0xd800) * 0x400 + (m - 0xdc00)))
                              rest4
                          else .bad
                      else .bad
                    else .bad
                  | _ => .bad
                else if n ≤ 0xdfff then .bad
                else .ch (Char.ofNat n) rest3
            | _ => .bad
          else .bad
    else if c.toNat < 0x20 then .bad
    else .ch c rest

/-- Body of a JSON string literal after the opening quote, accumulating
decoded characters in reverse, one `strTok` token at a time.  The
recursion is on input length: reading a character token consumes at
least one character (the termination proof is an exhaustive case
analysis of `strTok`). -/
def parseStrBody (acc : List Char) (l : List Char) : Option (String × List Char) :=
  match h : strTok l with
  | .done rest => some (String.mk acc.reverse, rest)
  | .ch c rest => parseStrBody (c :: acc) rest
  | .bad => none
termination_by l.length
decreasing_by
  cases l with
  | nil => simp [strTok] at h
  | cons c0 l0 =>
    simp only [strTok] at h
    repeat' split at h
    all_goals
      first
        | (injection h with h1 h2
           subst h2
           simp only [List.length_cons]
           omega)
        | injection h

/-- Consume a maximal run of decimal digits, folding their value. -/
def takeDigits (acc : Nat) : List Char → Nat × List Char
  | [] => (acc, [])
  | c :: rest =>
    match digitVal c with
    | some d => takeDigits (acc * 10 + d) rest
    | none => (acc, c :: rest)

/-- Parse an unsigned decimal integer; as in JSON, a leading zero may
not be followed by further digits. -/
def parseNum : List Char → Option (Nat × List Char)
  | [] => none
  | c :: rest =>
    match digitVal c with
    | none => none
    | some d =>
      if c = '0' then
        match rest with
        | [] => some (0, [])
        | r1 :: _ => if (digitVal r1).isSome then none else some (0, rest)
      else some (takeDigits d rest)

mutual
/-- Parse one JSON value: skip whitespace, then dispatch on the first
character.  All parsing functions thread a fuel counter decremented on
every call; between two consumed characters the dispatch chain is
bounded, so the generous fuel `json_loads` supplies never runs out on
accepted input. -/
def parseValue : Nat → List Char → Option (Json × List Char)
  | 0, _ => none
  | f + 1, s => parseValueCore f (skipWs s)

/-- Dispatch on the first significant character of a value. -/
def parseValueCore : Nat → List Char → Option (Json × List Char)
  | 0, _ => none
  | f + 1, s =>
    match s with
    | [] => none
    | c :: rest =>
      if c = '"' then
        match parseStrBody [] rest with
        | some (str, r) => some (.str str, r)
        | none => none
      else if c = lbrace then parseObjBody f (skipWs rest)
      else if c = '[' then parseArrBody f (skipWs rest)
      else if c = 't' then
        match rest with
        | 'r' :: 'u' :: 'e' :: r => some (.bool true, r)
        | _ => none
      else if c = 'f' then
        match rest with
        | 'a' :: 'l' :: 's' :: 'e' :: r => some (.bool false, r)
        | _ => none
      else if c = 'n' then
        match rest with
        | 'u' :: 'l' :: 'l' :: r => some (.null, r)
        | _ => none
      else
        match parseNum (c :: rest) with
        | some (n, r) => some (.num n, r)
        | none => none

/-- After an object's opening brace: empty object or its members. -/
def parseObjBody : Nat → List Char → Option (Json × List Char)
  | 0, _ => none
  | f + 1, s =>
    match s with
    | [] => none
    | c :: rest =>
      if c = rbrace then some (.obj [], rest)
      else
        match parseMembers f (c :: rest) with
        | some (ms, r) => some (.obj ms, r)
        | none => none

/-- After an array's opening bracket: empty array or its elements. -/
def parseArrBody : Nat → List Char → Option (Json × List Char)
  | 0, _ => none
  | f + 1, s =>
    match s with
    | [] => none
    | c :: rest =>
      if c = ']' then some (.arr [], rest)
      else
        match parseElems f (c :: rest) with
        | some (es, r) => some (.arr es, r)
        | none => none

/-- Object members, a quoted key expected first. -/
def parseMembers : Nat → List Char → Option (List (String × Json) × List Char)
  | 0, _ => none
  | f + 1, s =>
    match s with
    | [] => none
    | c :: rest =>
      if c = '"' then
        match parseStrBody [] rest with
        | none => none
        | some (k, r1) => parseMemberTail f k (skipWs r1)
      else none

/-- After a member's key: the colon and the value. -/
def parseMemberTail : Nat → String → List Char → Option (List (String × Json) × List Char)
  | 0, _, _ => none
  | f + 1, k, s =>
    match s with
    | [] => none
    | c2 :: r2 =>
      if c2 = ':' then
        match parseValue f r2 with
        | none => none
        | some (v, r3) => parseMemberSep f k v (skipWs r3)
      else none

/-- After a member's value: a comma and further members, or the closing
brace. -/
def parseMemberSep : Nat → String → Json → List Char → Option (List (String × Json) × List Char)
  | 0, _, _, _ => none
  | f + 1, k, v, s =>
    match s with
    | [] => none
    | c3 :: r4 =>
      if c3 = ',' then
        match parseMembers f (skipWs r4) with
        | some (ms, r) => some ((k, v) :: ms, r)
        | none => none
      else if c3 = rbrace then some ([(k, v)], r4)
      else none

/-- Array elements: a value, then a separator. -/
def parseElems : Nat → List Char → Option (List Json × List Char)
  | 0, _ => none
  | f + 1, s =>
    match parseValue f s with
    | none => none
    | some (v, r1) => parseElemSep f v (skipWs r1)

/-- After an array element: a comma and further elements, or the
closing bracket. -/
def parseElemSep : Nat → Json → List Char → Option (List Json × List Char)
  | 0, _, _ => none
  | f + 1, v, s =>
    match s with
    | [] => none
    | c2 :: r2 =>
      if c2 = ',' then
        match parseElems f r2 with
        | some (es, r) => some (v :: es, r)
        | none => none
      else if c2 = ']' then some ([v], r2)
      else none
end

/-- Model of `json.loads`: parse one value and require only whitespace
to remain.  The fuel is generous: each call consumes fuel one unit at a
time and the dispatch chain between two consumed characters stays far
below eight calls, so accepted input never exhausts it. -/
def json_loads (s : String) : Option Json :=
  match parseValue (8 * s.data.length + 40) s.data with
  | some (v, rest) => if skipWs rest = [] then some v else none
  | none => none

/-! ### Serialisation back to HTML text

Models `str(soup)` (bs4 `Tag.decode` with the default minimal
formatter): text is entity-escaped (`&`, `<`, `>`) except inside the
CDATA-containing tags `script` and `style`, attributes are
double-quoted with `&`, `<`, `>`, `"` substituted, and the HTML void
elements are rendered self-closed. -/

/-- HTML void elements, as known to bs4's HTML tree builders. -/
def voidTags : List String :=
  ["area", "base", "br", "col", "embed", "hr", "img", "input", "keygen",
   "link", "menuitem", "param", "source", "track", "wbr"]

/-- Tags whose text content is emitted raw (CDATA) by the formatter. -/
def cdataTags : List String := ["script", "style"]

/-- Minimal-formatter escape of one text character. -/
def escTextChar (c : Char) : String :=
  if c = '&' then "&amp;"
  else if c = '<' then "&lt;"
  else if c = '>' then "&gt;"
  else String.mk [c]

/-- Minimal-formatter escape of text. -/
def escText (s : String) : String :=
  s.data.foldl (fun acc c => acc ++ escTextChar c) ""

/-- Escape of one attribute-value character. -/
def escAttrChar (c : Char) : String :=
  if c = '&' then "&amp;"
  else if c = '<' then "&lt;"
  else if c = '>' then "&gt;"
  else if c = '"' then "&quot;"
  else String.mk [c]

/-- Escape of an attribute value. -/
def escAttr (s : String) : String :=
  s.data.foldl (fun acc c => acc ++ escAttrChar c) ""

/-- Render an attribute list, each as ` key="value"`. -/
def serializeAttrs : List (String × String) → String
  | [] => ""
  | (k, v) :: rest => " " ++ k ++ "=\"" ++ escAttr v ++ "\"" ++ serializeAttrs rest

mutual
/-- Render one node; `raw` is true when the parent is a
CDATA-containing tag, in which case text children are not escaped. -/
def serializeNode (raw : Bool) : Node → String
  | .text s => if raw then s else escText s
  | .elem t a cs =>
    if t ∈ voidTags then "<" ++ t ++ serializeAttrs a ++ "/>"
    else
      "<" ++ t ++ serializeAttrs a ++ ">" ++ serializeList (t ∈ cdataTags) cs
        ++ "</" ++ t ++ ">"

/-- Render sibling nodes in order. -/
def serializeList (raw : Bool) : List Node → String
  | [] => ""
  | n :: ns => serializeNode raw n ++ serializeList raw ns
end

/-- Render the whole document, `str(soup)`. -/
def serializeDoc (doc : Doc) : String := serializeList false doc

/-- `process_with_basic` (runner.py lines 174–212): the tree-level body
followed by `str(soup)`; returns the serialised tree and the extraction
mapping, `none` on the `AttributeError` path. -/
def process_with_basic (doc : Doc) : Option (String × ExtractionData) :=
  match process_with_basic_tree doc with
  | some (d2, data) => some (serializeDoc d2, data)
  | none => none

/-! ### Source classification (`is_url`, `process_html` dispatch)

`os.path.isfile` never raises (CPython's `genericpath.isfile` catches
`OSError` and `ValueError`), so it is modelled as a boolean predicate on
strings — the state of the filesystem is a parameter.  `is_url` wraps
`urllib.parse.urlparse` in a `try/except ValueError`, so it is total as
well; the model extracts the scheme and netloc the way `urlsplit` does
and maps its `Invalid IPv6 URL` `ValueError` (mismatched brackets in the
netloc) to `false`, which is what the `except` branch returns. -/

/-- Characters allowed in a URL scheme after the leading letter
(`urllib.parse.scheme_chars`). -/
def isSchemeChar (c : Char) : Bool :=
  c.isAlpha ∨ c.isDigit ∨ c = '+' ∨ c = '-' ∨ c = '.'

/-- Split off `scheme:` as `urlsplit` does: a leading ASCII letter, a
run of scheme characters, then a colon; otherwise no scheme. -/
def splitScheme (cs : List Char) : Option (List Char × List Char) :=
  match cs with
  | [] => none
  | c :: _ =>
    if c.isAlpha then
      let pre := cs.takeWhile isSchemeChar
      match cs.drop pre.length with
      | ':' :: rest => some (pre, rest)
      | _ => none
    else none

/-- Netloc delimiters: `urlsplit` ends the netloc at `/`, `?` or `#`. -/
def isNetlocEnd (c : Char) : Bool := c = '/' ∨ c = '?' ∨ c = '#'

/-- `HTMLExtractor.is_url` (runner.py lines 66–80):
`all([result.scheme, result.netloc])` over `urlparse(source)`, with the
`ValueError` of a bracket-mismatched IPv6 netloc caught as `False`. -/
def is_url (source : String) : Bool :=
  match splitScheme source.data with
  | none => false
  | some (scheme, rest) =>
    match rest with
    | '/' :: '/' :: tail =>
      let netloc := tail.takeWhile (fun c => ¬ isNetlocEnd c)
      if ('[' ∈ netloc ∧ ']' ∉ netloc) ∨ (']' ∈ netloc ∧ '[' ∉ netloc) then
        false
      else
        ¬ scheme.isEmpty ∧ ¬ netloc.isEmpty
    | _ => false

/-- The tagged source kind of the specification's §3 data model. -/
inductive Source where
  | filePath (s : String)
  | url (s : String)
  | literalHtml (s : String)
deriving Repr, DecidableEq

/-- The classification performed by `process_html` (runner.py lines
225–234): the `os.path.isfile` check first, then `is_url`, else literal
HTML.  `isfile` abstracts the filesystem. -/
def classify (isfile : String → Bool) (source : String) : Source :=
  if isfile source then .filePath source
  else if is_url source then .url source
  else .literalHtml source

/-- The concrete action `process_html` takes for a source before any
rendering: read the file, hand the URL to Playwright, fetch the URL over
HTTP, or use the string as literal HTML. -/
inductive HtmlAction where
  | readFile (path : String)
  | playwrightUrl (url : String)
  | fetchUrl (url : String)
  | useLiteral (html : String)
deriving Repr, DecidableEq

/-- The dispatch of `process_html` (runner.py lines 225–234) as the
action it performs on the source string. -/
def process_html_action (use_playwright : Bool) (isfile : String → Bool)
    (source : String) : HtmlAction :=
  if isfile source then .readFile source
  else if is_url source then
    if use_playwright then .playwrightUrl source else .fetchUrl source
  else .useLiteral source

/-! ### Browser-based renderer (`process_with_playwright`)

The browser itself is external; the repository's own logic after script
injection (runner.py lines 152–169) is: evaluate a snippet that returns
`dataEl.textContent` when the element with id `html-extractor-data`
exists and the text `'\x7b\x7d'` otherwise, then `json.loads` it with a
`json.JSONDecodeError` handler that logs a warning and substitutes the
empty mapping.  The page state is abstracted as the optional text
content of that element and the serialised page HTML. -/

/-- The in-page snippet of runner.py lines 153–158:
`dataEl ? dataEl.textContent : '\x7b\x7d'`. -/
def extraction_payload_text (domText : Option String) : String :=
  match domText with
  | some t => t
  | none => "\x7b\x7d"

/-- Lines 160–164: `json.loads` of the payload with the decode-error
fallback to the empty mapping. -/
def extraction_data_of (domText : Option String) : Json :=
  match json_loads (extraction_payload_text domText) with
  | some j => j
  | none => .obj []

/-- The result assembly of `process_with_playwright` (runner.py lines
152–169): the page's serialised HTML together with the extraction
mapping recovered from the DOM element.  Navigation/evaluation failures
earlier in the function propagate as exceptions and are outside this
value-level model. -/
def process_with_playwright_result (pageHtml : String) (domText : Option String) :
    String × Json :=
  (pageHtml, extraction_data_of domText)

/-! ### Profile-backed renderer (modelled from the spec)

The specification (§4.3) describes a third renderer variant bound to a
named on-disk browser profile.  No such code exists under `src/` — the
only Playwright path there (`process_with_playwright`) has no profile
handling — so this variant is modelled from the spec's words. -/

/-- Failure of browser launch, navigation, evaluation or serialisation
(spec §4.3 failure semantics). -/
inductive RenderError where
  | renderError (msg : String)
deriving Repr, DecidableEq

/-- Result shape of the profile-backed renderer: HTML only, the
extraction data always absent (spec §3: "absent for the profile-backed
renderer"). -/
structure ProfileRenderResult where
  html : String
  extractionData : Option Json
  usedPersistentProfile : Bool
deriving Repr

/-- Modelled from the spec: the profile-backed renderer of §4.3, absent
from `src/`.  Step 1: "Resolve profile directory existence; if present,
open a persistent browser context rooted there; if absent, log a warning
and open an ephemeral browser instance instead."  The browser render is
abstracted as `render persistent?`, which may fail with `RenderError`;
the returned result never carries extraction data. -/
def process_with_profile (profileExists : String → Bool)
    (render : Bool → Except RenderError String) (profileName : String) :
    Except RenderError ProfileRenderResult :=
  if profileExists profileName then
    match render true with
    | .ok h => .ok ⟨h, none, true⟩
    | .error e => .error e
  else
    match render false with
    | .ok h => .ok ⟨h, none, false⟩
    | .error e => .error e

/-! ### Extractor construction (`HTMLExtractor.__init__`)

Lines 48–58 of runner.py: resolve `injector.js` next to the module,
raise `FileNotFoundError` when it does not exist (the startup failure
the specification's error taxonomy names `ConfigurationError`), else
read it.  The filesystem is abstracted as a partial map from paths to
file contents. -/

/-- The startup error: the enrichment script file is missing.  The code
raises `FileNotFoundError`; spec §7 calls this error kind
`ConfigurationError`. -/
inductive ConfigurationError where
  | injectorNotFound (path : String)
deriving Repr, DecidableEq

/-- The constructed extractor state. -/
structure Extractor where
  use_playwright : Bool
  headless : Bool
  injector_script : String
deriving Repr, DecidableEq

/-- `os.path.join(script_dir, "injector.js")`. -/
def injector_path_of (script_dir : String) : String :=
  script_dir ++ "/injector.js"

/-- `HTMLExtractor.__init__` (runner.py lines 37–58): gate
`use_playwright` on Playwright availability, locate `injector.js`,
fail with the startup error when the file is absent, else load it. -/
def extractor_init (files : String → Option String) (playwright_available : Bool)
    (use_playwright : Bool) (headless : Bool) (script_dir : String) :
    Except ConfigurationError Extractor :=
  match files (injector_path_of script_dir) with
  | none => .error (.injectorNotFound (injector_path_of script_dir))
  | some script =>
    .ok { use_playwright := use_playwright ∧ playwright_available
          headless := headless
          injector_script := script }

/-! ### Orchestrator (`extract_and_enhance`)

Lines 277–309 of runner.py: `process_html` runs first; only then is the
HTML written, and then, if requested, the extraction data.  Any
exception is logged and re-raised.  The filesystem is modelled as the
list of performed writes, rendering is abstracted as its `Except`
outcome, and the write operations append to the log (`os.makedirs` has
no observable effect in this model). -/

/-- One completed file write. -/
structure FileWrite where
  path : String
  content : String
deriving Repr, DecidableEq

/-- `save_html` (runner.py lines 241–257): write the HTML text. -/
def save_html (html : String) (output_path : String) (fs : List FileWrite) :
    List FileWrite :=
  fs ++ [⟨output_path, html⟩]

/-- `save_extraction_data` (runner.py lines 259–275): write the mapping
serialised as JSON (`json.dump` with `indent=2`; the exact text is
irrelevant to the claims, the serialised mapping is recorded). -/
def save_extraction_data (data : ExtractionData) (output_path : String)
    (fs : List FileWrite) : List FileWrite :=
  fs ++ [⟨output_path, dumpsData data⟩]

/-- `extract_and_enhance` (runner.py lines 277–309) over an abstract
render outcome: on success write the HTML, then optionally the data;
on a render exception re-raise with the write log untouched. -/
def extract_and_enhance (processResult : Except RenderError (String × ExtractionData))
    (output_html : String) (output_data : Option String) (fs : List FileWrite) :
    Except RenderError ExtractionData × List FileWrite :=
  match processResult with
  | .error e => (.error e, fs)
  | .ok (html, data) =>
    let fs1 := save_html html output_html fs
    match output_data with
    | some p => (.ok data, save_extraction_data data p fs1)
    | none => (.ok data, fs1)

/-! ### Derived observations used by the claims -/

/-- A node with a child appended at the end (text nodes unchanged). -/
def appendChild (child : Node) : Node → Node
  | .elem t a cs => .elem t a (cs ++ [child])
  | .text s => .text s

mutual
/-- Number of `script` elements in a subtree whose `id` attribute is
`html-extractor-data`. -/
def countDataScripts : Node → Nat
  | .text _ => 0
  | .elem t a cs =>
    (if t = "script" ∧ a.lookup "id" = some "html-extractor-data" then 1 else 0)
      + countDataScriptsList cs

/-- `countDataScripts` over sibling nodes. -/
def countDataScriptsList : List Node → Nat
  | [] => 0
  | n :: ns => countDataScripts n + countDataScriptsList ns
end

/-- Number of extraction-data script elements contained in the
document's body (`soup.body`, the first `body` element in document
order); `0` when there is no body. -/
def bodyDataScriptCount (doc : Doc) : Nat :=
  match findFirstList "body" doc with
  | some (.elem _ _ cs) => countDataScriptsList cs
  | _ => 0

/-- The reprocessing experiment of the round-trip claim: run the static
fallback renderer, feed its output tree back in, and observe how many
extraction-data script elements the final document's body holds. -/
def twoPassBodyCount (doc : Doc) : Option Nat :=
  match process_with_basic_tree doc with
  | none => none
  | some (out1, _) =>
    match process_with_basic_tree out1 with
    | none => none
    | some (out2, _) => some (bodyDataScriptCount out2)

/-- The JSON value denoted by the extraction mapping — what Python's
`json.loads` yields on `json.dumps(extraction_data)`. -/
def jsonOfData (d : ExtractionData) : Json :=
  .obj
    [("metadata", .obj [("title", .str d.metadata.title)]),
     ("statistics",
      .obj
        [("headings", .num d.statistics.headings),
         ("links", .num d.statistics.links),
         ("images", .num d.statistics.images),
         ("tables", .num d.statistics.tables),
         ("paragraphs", .num d.statistics.paragraphs)]),
     ("enhancementApplied", .bool d.enhancementApplied)]

/-! ### Concrete documents used as witnesses -/

/-- `<html><body></body></html>` as parsed by `html.parser`. -/
def exampleDoc : Doc := [Node.elem "html" [] [Node.elem "body" [] []]]

/-- The extraction mapping of `exampleDoc`. -/
def exampleData : ExtractionData := extract_basic_data exampleDoc

/-- The tree `process_with_basic` produces from `exampleDoc`. -/
def exampleOut : Doc :=
  [Node.elem "html" [] [Node.elem "body" [] [script_tag exampleData]]]

/-- A document with headings, a link, an image, a table, paragraphs and
a title, as parsed by `html.parser`. -/
def statsDoc : Doc :=
  [Node.elem "html" []
    [Node.elem "head" [] [Node.elem "title" [] [Node.text "Demo Page"]],
     Node.elem "body" []
      [Node.elem "h1" [] [Node.text "A"],
       Node.elem "h2" [] [Node.text "B"],
       Node.elem "p" [] [Node.text "one",
         Node.elem "a" [("href", "x")] [Node.text "link"]],
       Node.elem "p" [] [Node.elem "img" [("src", "i.png")] []],
       Node.elem "table" [] [Node.elem "h2" [] []]]]]

/-- The extraction mapping of `statsDoc`. -/
def statsData : ExtractionData := extract_basic_data statsDoc

/-- The tree `process_with_basic` produces from `statsDoc`: the data
script element appended to the body. -/
def statsOut : Doc :=
  [Node.elem "html" []
    [Node.elem "head" [] [Node.elem "title" [] [Node.text "Demo Page"]],
     Node.elem "body" []
      [Node.elem "h1" [] [Node.text "A"],
       Node.elem "h2" [] [Node.text "B"],
       Node.elem "p" [] [Node.text "one",
         Node.elem "a" [("href", "x")] [Node.text "link"]],
       Node.elem "p" [] [Node.elem "img" [("src", "i.png")] []],
       Node.elem "table" [] [Node.elem "h2" [] []],
       script_tag statsData]]]

/-- The serialised output of `process_with_basic` on `statsDoc`. -/
def statsOutHtml : String := serializeDoc statsOut

/-- Specification helper for reasoning about decimal parsing: fold a
digit list onto an accumulator. -/
def foldDigits (a : Nat) (l : List Char) : Nat :=
  l.foldl (fun x c => x * 10 + ((digitVal c).getD 0)) a

/-! ## Theorems on the claims -/

/-- Helper: a successful tree-level run returns exactly the mapping
computed by `extract_basic_data`. -/
theorem process_with_basic_tree_data (doc out : Doc) (data : ExtractionData)
    (h : process_with_basic_tree doc = some (out, data)) :
    data = extract_basic_data doc := by
  simp only [process_with_basic_tree] at h
  cases hi : inject_script doc (script_tag (extract_basic_data doc)) with
  | none => rw [hi] at h; exact absurd h (by simp)
  | some d2 =>
    rw [hi] at h
    simp only [Option.some.injEq, Prod.mk.injEq] at h
    exact h.2.symm

/-- Helper: the same for the string-level `process_with_basic`. -/
theorem process_with_basic_data (doc : Doc) (html : String)
    (data : ExtractionData) (h : process_with_basic doc = some (html, data)) :
    data = extract_basic_data doc := by
  unfold process_with_basic at h
  cases ht : process_with_basic_tree doc with
  | none => rw [ht] at h; exact absurd h (by simp)
  | some p =>
    rw [ht] at h
    simp only [Option.some.injEq, Prod.mk.injEq] at h
    exact process_with_basic_tree_data doc p.1 data (by rw [ht, ← h.2])

/-- Helper: the membership indicator for the combined heading list is
the sum of the six per-tag indicators (the six names are distinct). -/
theorem headingIndicator (t : String) :
    (if t ∈ headingNames then (1 : Nat) else 0) =
      (if t ∈ ["h1"] then (1 : Nat) else 0) + (if t ∈ ["h2"] then (1 : Nat) else 0)
      + (if t ∈ ["h3"] then (1 : Nat) else 0) + (if t ∈ ["h4"] then (1 : Nat) else 0)
      + (if t ∈ ["h5"] then (1 : Nat) else 0) + (if t ∈ ["h6"] then (1 : Nat) else 0) := by
  by_cases h1 : t = "h1"
  · subst h1; decide
  by_cases h2 : t = "h2"
  · subst h2; decide
  by_cases h3 : t = "h3"
  · subst h3; decide
  by_cases h4 : t = "h4"
  · subst h4; decide
  by_cases h5 : t = "h5"
  · subst h5; decide
  by_cases h6 : t = "h6"
  · subst h6; decide
  have hmem : t ∉ headingNames := by
    simp only [headingNames, List.mem_cons, List.not_mem_nil, or_false]
    intro hc
    rcases hc with h | h | h | h | h | h <;> simp_all
  simp [hmem, h1, h2, h3, h4, h5, h6]

mutual
/-- Helper: `find_all` over the six heading names counts the same
elements as the six individual counts combined (node form). -/
theorem countTags_headings (n : Node) :
    countTags headingNames n =
      countTags ["h1"] n + countTags ["h2"] n + countTags ["h3"] n +
      countTags ["h4"] n + countTags ["h5"] n + countTags ["h6"] n := by
  cases n with
  | text s => simp [countTags]
  | elem t a cs =>
    have hcs := countTagsList_headings cs
    simp only [countTags]
    rw [headingIndicator t]
    omega

/-- Helper: the heading-count split over sibling lists. -/
theorem countTagsList_headings (l : List Node) :
    countTagsList headingNames l =
      countTagsList ["h1"] l + countTagsList ["h2"] l + countTagsList ["h3"] l +
      countTagsList ["h4"] l + countTagsList ["h5"] l + countTagsList ["h6"] l := by
  cases l with
  | nil => simp [countTagsList]
  | cons n ns =>
    have hn := countTags_headings n
    have hns := countTagsList_headings ns
    simp only [countTagsList]
    omega
end

/-- C5: on every successful run of the static fallback renderer, the
`headings` statistic equals the sum of the six per-level heading counts,
and `links`, `images`, `tables`, `paragraphs` are the counts of `a`,
`img`, `table` and `p` elements of the parsed tree. -/
theorem C5_statistics_count_the_tree (doc : Doc) (html : String)
    (data : ExtractionData) (h : process_with_basic doc = some (html, data)) :
    data.statistics.headings =
      countTagsList ["h1"] doc + countTagsList ["h2"] doc +
      countTagsList ["h3"] doc + countTagsList ["h4"] doc +
      countTagsList ["h5"] doc + countTagsList ["h6"] doc ∧
    data.statistics.links = countTagsList ["a"] doc ∧
    data.statistics.images = countTagsList ["img"] doc ∧
    data.statistics.tables = countTagsList ["table"] doc ∧
    data.statistics.paragraphs = countTagsList ["p"] doc := by
  have hd := process_with_basic_data doc html data h
  subst hd
  exact ⟨countTagsList_headings doc, rfl, rfl, rfl, rfl⟩

/-- C5 witness: the statistics of `statsDoc` (two `h2` elements, one of
them nested inside a table, plus one `h1`). -/
theorem C5_statistics_count_the_tree_witness :
    process_with_basic statsDoc = some (statsOutHtml, statsData) ∧
    (statsData.statistics.headings =
        countTagsList ["h1"] statsDoc + countTagsList ["h2"] statsDoc +
        countTagsList ["h3"] statsDoc + countTagsList ["h4"] statsDoc +
        countTagsList ["h5"] statsDoc + countTagsList ["h6"] statsDoc ∧
      statsData.statistics.links = countTagsList ["a"] statsDoc ∧
      statsData.statistics.images = countTagsList ["img"] statsDoc ∧
      statsData.statistics.tables = countTagsList ["table"] statsDoc ∧
      statsData.statistics.paragraphs = countTagsList ["p"] statsDoc) :=
  ⟨rfl, C5_statistics_count_the_tree statsDoc statsOutHtml statsData rfl⟩

/-- C6: on every successful run of the static fallback renderer, the
reported title is the text content of the document's first `title`
element, the empty string when no such element exists, and
`enhancementApplied` is `false`. -/
theorem C6_title_and_enhancement_flag (doc : Doc) (html : String)
    (data : ExtractionData) (h : process_with_basic doc = some (html, data)) :
    (∀ t, findFirstList "title" doc = some t → data.metadata.title = textOf t) ∧
    (findFirstList "title" doc = none → data.metadata.title = "") ∧
    data.enhancementApplied = false := by
  have hd := process_with_basic_data doc html data h
  subst hd
  refine ⟨?_, ?_, rfl⟩
  · intro t ht
    simp [extract_basic_data, ht]
  · intro ht
    simp [extract_basic_data, ht]

/-- C6 witness: `statsDoc` holds `<title>Demo Page</title>`, and the
mapping's title is exactly its text. -/
theorem C6_title_and_enhancement_flag_witness :
    process_with_basic statsDoc = some (statsOutHtml, statsData) ∧
    findFirstList "title" statsDoc =
      some (Node.elem "title" [] [Node.text "Demo Page"]) ∧
    statsData.metadata.title = textOf (Node.elem "title" [] [Node.text "Demo Page"]) :=
  ⟨rfl, rfl,
    (C6_title_and_enhancement_flag statsDoc statsOutHtml statsData rfl).1
      (Node.elem "title" [] [Node.text "Demo Page"]) rfl⟩

/-- Helper: searching a concatenation finds the first hit of the left
part, else searches the right part. -/
theorem findFirstList_append (name : String) (l1 l2 : List Node) :
    findFirstList name (l1 ++ l2) =
      (match findFirstList name l1 with
       | some r => some r
       | none => findFirstList name l2) := by
  induction l1 with
  | nil => simp [findFirstList]
  | cons n ns ih =>
    simp only [List.cons_append, findFirstList]
    cases hf : findFirst name n <;> simp [hf, ih]

mutual
/-- Helper: appending into a subtree fails exactly when the subtree has
no element of that name. -/
theorem appendToFirst_none_iff (name : String) (child n : Node) :
    appendToFirst name child n = none ↔ findFirst name n = none := by
  cases n with
  | text s => simp [appendToFirst, findFirst]
  | elem t a cs =>
    by_cases h : t = name
    · simp [appendToFirst, findFirst, h]
    · have ih := appendToFirstList_none_iff name child cs
      simp only [appendToFirst, findFirst, if_neg h]
      cases hc : appendToFirstList name child cs with
      | some cs2 => simp [hc] at ih ⊢; exact ih
      | none => simp [hc] at ih ⊢; exact ih

/-- Helper: the sibling-list version of `appendToFirst_none_iff`. -/
theorem appendToFirstList_none_iff (name : String) (child : Node) (l : List Node) :
    appendToFirstList name child l = none ↔ findFirstList name l = none := by
  cases l with
  | nil => simp [appendToFirstList, findFirstList]
  | cons n ns =>
    have ihn := appendToFirst_none_iff name child n
    have ihs := appendToFirstList_none_iff name child ns
    simp only [appendToFirstList, findFirstList]
    cases ha : appendToFirst name child n with
    | some n2 =>
      simp [ha] at ihn
      cases hf : findFirst name n with
      | none => exact absurd hf ihn
      | some r => simp
    | none =>
      simp [ha] at ihn
      rw [ihn]
      cases hb : appendToFirstList name child ns with
      | some ns2 => simp [hb] at ihs; simp [ihs]
      | none => simp [hb] at ihs; simp [ihs]
end

mutual
/-- Helper: a successful append locates the first `name` element `b` of
the subtree, and in the result the first `name` element is exactly `b`
with the child appended. -/
theorem appendToFirst_finds (name : String) (child n n2 : Node)
    (h : appendToFirst name child n = some n2) :
    ∃ b, findFirst name n = some b ∧
      findFirst name n2 = some (appendChild child b) := by
  cases n with
  | text s => simp [appendToFirst] at h
  | elem t a cs =>
    by_cases ht : t = name
    · unfold appendToFirst at h
      rw [if_pos ht] at h
      simp only [Option.some.injEq] at h
      subst h
      exact ⟨.elem t a cs, by simp [findFirst, ht],
        by simp [findFirst, ht, appendChild]⟩
    · simp only [appendToFirst, if_neg ht] at h
      cases hc : appendToFirstList name child cs with
      | none => rw [hc] at h; simp at h
      | some cs2 =>
        rw [hc] at h
        simp only [Option.some.injEq] at h
        subst h
        obtain ⟨b, hb1, hb2⟩ := appendToFirstList_finds name child cs cs2 hc
        exact ⟨b, by simp [findFirst, if_neg ht, hb1],
          by simp [findFirst, if_neg ht, hb2]⟩

/-- Helper: the sibling-list version of `appendToFirst_finds`. -/
theorem appendToFirstList_finds (name : String) (child : Node) (l l2 : List Node)
    (h : appendToFirstList name child l = some l2) :
    ∃ b, findFirstList name l = some b ∧
      findFirstList name l2 = some (appendChild child b) := by
  cases l with
  | nil => simp [appendToFirstList] at h
  | cons n ns =>
    simp only [appendToFirstList] at h
    cases ha : appendToFirst name child n with
    | some m2 =>
      rw [ha] at h
      simp only [Option.some.injEq] at h
      subst h
      obtain ⟨b, hb1, hb2⟩ := appendToFirst_finds name child n m2 ha
      exact ⟨b, by simp [findFirstList, hb1], by simp [findFirstList, hb2]⟩
    | none =>
      rw [ha] at h
      have hn : findFirst name n = none := (appendToFirst_none_iff name child n).mp ha
      cases hb : appendToFirstList name child ns with
      | none => rw [hb] at h; simp at h
      | some ns2 =>
        rw [hb] at h
        simp only [Option.some.injEq] at h
        subst h
        obtain ⟨b, h1, h2⟩ := appendToFirstList_finds name child ns ns2 hb
        exact ⟨b, by simp [findFirstList, hn, h1], by simp [findFirstList, hn, h2]⟩
end

mutual
/-- Helper: appending `child` into a subtree holding no `name2` element
makes the subtree's first `name2` element whatever `child` contributes. -/
theorem appendToFirst_fresh (name name2 : String) (child n n2 : Node)
    (habs : findFirst name2 n = none) (h : appendToFirst name child n = some n2) :
    findFirst name2 n2 = findFirst name2 child := by
  cases n with
  | text s => simp [appendToFirst] at h
  | elem t a cs =>
    have ht2 : t ≠ name2 := by
      intro e; simp [findFirst, e] at habs
    have hcs : findFirstList name2 cs = none := by
      simpa [findFirst, ht2] using habs
    by_cases ht : t = name
    · simp only [appendToFirst, if_pos ht, Option.some.injEq] at h
      subst h
      simp only [findFirst, if_neg ht2]
      rw [findFirstList_append]
      simp only [hcs, findFirstList]
      cases findFirst name2 child <;> simp
    · simp only [appendToFirst, if_neg ht] at h
      cases hc : appendToFirstList name child cs with
      | none => rw [hc] at h; simp at h
      | some cs2 =>
        rw [hc] at h
        simp only [Option.some.injEq] at h
        subst h
        have := appendToFirstList_fresh name name2 child cs cs2 hcs hc
        simp [findFirst, ht2, this]

/-- Helper: the sibling-list version of `appendToFirst_fresh`. -/
theorem appendToFirstList_fresh (name name2 : String) (child : Node)
    (l l2 : List Node) (habs : findFirstList name2 l = none)
    (h : appendToFirstList name child l = some l2) :
    findFirstList name2 l2 = findFirst name2 child := by
  cases l with
  | nil => simp [appendToFirstList] at h
  | cons n ns =>
    have hn2 : findFirst name2 n = none := by
      revert habs
      simp only [findFirstList]
      cases findFirst name2 n <;> simp
    have hns2 : findFirstList name2 ns = none := by
      simpa [findFirstList, hn2] using habs
    simp only [appendToFirstList] at h
    cases ha : appendToFirst name child n with
    | some m2 =>
      rw [ha] at h
      simp only [Option.some.injEq] at h
      subst h
      have hm := appendToFirst_fresh name name2 child n m2 hn2 ha
      simp only [findFirstList, hm]
      cases findFirst name2 child <;> simp [hns2]
    | none =>
      rw [ha] at h
      cases hb : appendToFirstList name child ns with
      | none => rw [hb] at h; simp at h
      | some ns2 =>
        rw [hb] at h
        simp only [Option.some.injEq] at h
        subst h
        have := appendToFirstList_fresh name name2 child ns ns2 hns2 hb
        simp [findFirstList, hn2, this]
end

mutual
/-- Helper: what `find` returns is an element node bearing the searched
name. -/
theorem findFirst_shape (name : String) (n b : Node)
    (h : findFirst name n = some b) : ∃ a cs, b = .elem name a cs := by
  cases n with
  | text s => simp [findFirst] at h
  | elem t a cs =>
    by_cases ht : t = name
    · unfold findFirst at h
      rw [if_pos ht] at h
      simp only [Option.some.injEq] at h
      exact ⟨a, cs, by rw [← h, ht]⟩
    · simp only [findFirst, if_neg ht] at h
      exact findFirstList_shape name cs b h

/-- Helper: the sibling-list version of `findFirst_shape`. -/
theorem findFirstList_shape (name : String) (l : List Node) (b : Node)
    (h : findFirstList name l = some b) : ∃ a cs, b = .elem name a cs := by
  cases l with
  | nil => simp [findFirstList] at h
  | cons n ns =>
    simp only [findFirstList] at h
    cases hf : findFirst name n with
    | some r =>
      rw [hf] at h
      simp only [Option.some.injEq] at h
      exact h ▸ findFirst_shape name n r hf
    | none =>
      rw [hf] at h
      exact findFirstList_shape name ns b h
end

/-- Helper: data-script counting distributes over concatenation. -/
theorem countDataScriptsList_append (l1 l2 : List Node) :
    countDataScriptsList (l1 ++ l2) =
      countDataScriptsList l1 + countDataScriptsList l2 := by
  induction l1 with
  | nil => simp [countDataScriptsList]
  | cons n ns ih =>
    simp only [List.cons_append, countDataScriptsList, List.append_eq]
    omega

/-- Helper: the synthesised data script element counts as exactly one. -/
theorem countDataScripts_script_tag (d : ExtractionData) :
    countDataScripts (script_tag d) = 1 := rfl

/-- Helper: one successful pass of the static fallback renderer leaves
the output with a body whose extraction-script count is exactly one more
than the input's. -/
theorem process_tree_pass (doc out : Doc) (data : ExtractionData)
    (h : process_with_basic_tree doc = some (out, data)) :
    (findFirstList "body" out).isSome = true ∧
    bodyDataScriptCount out = bodyDataScriptCount doc + 1 := by
  simp only [process_with_basic_tree] at h
  cases hi : inject_script doc (script_tag (extract_basic_data doc)) with
  | none => rw [hi] at h; simp at h
  | some d2 =>
    rw [hi] at h
    simp only [Option.some.injEq, Prod.mk.injEq] at h
    obtain ⟨hout, _⟩ := h
    subst hout
    simp only [inject_script] at hi
    cases hb : appendToFirstList "body" (script_tag (extract_basic_data doc)) doc with
    | some d2' =>
      rw [hb] at hi
      simp only [Option.some.injEq] at hi
      subst hi
      obtain ⟨b, h1, h2⟩ := appendToFirstList_finds _ _ _ _ hb
      obtain ⟨a, cs, rfl⟩ := findFirstList_shape _ _ _ h1
      refine ⟨by simp [h2], ?_⟩
      simp only [bodyDataScriptCount, h1, h2, appendChild]
      rw [countDataScriptsList_append]
      simp [countDataScriptsList, countDataScripts_script_tag]
    | none =>
      rw [hb] at hi
      have hdocnone : findFirstList "body" doc = none :=
        (appendToFirstList_none_iff _ _ _).mp hb
      cases hh : appendToFirstList "html" (.elem "body" [] []) doc with
      | none => rw [hh] at hi; simp at hi
      | some dh =>
        rw [hh] at hi
        have hfind : findFirstList "body" dh = some (.elem "body" [] []) := by
          rw [appendToFirstList_fresh "html" "body" _ doc dh hdocnone hh]
          simp [findFirst]
        obtain ⟨b, h1, h2⟩ := appendToFirstList_finds _ _ _ _ hi
        rw [hfind] at h1
        simp only [Option.some.injEq] at h1
        subst h1
        refine ⟨by simp [h2], ?_⟩
        simp only [bodyDataScriptCount, hdocnone, h2, appendChild]
        simp [countDataScriptsList, countDataScripts_script_tag]

/-- Helper: the static fallback renderer succeeds on any document that
has a body element. -/
theorem process_tree_some_of_body (doc : Doc)
    (h : (findFirstList "body" doc).isSome = true) :
    ∃ out data, process_with_basic_tree doc = some (out, data) := by
  cases hb : appendToFirstList "body" (script_tag (extract_basic_data doc)) doc with
  | none =>
    rw [(appendToFirstList_none_iff _ _ _).mp hb] at h
    simp at h
  | some d2 =>
    exact ⟨d2, extract_basic_data doc, by
      simp only [process_with_basic_tree, inject_script, hb]⟩

/-- C2 (amended): reprocessing the static fallback renderer's output
always succeeds, and the new extraction script element is appended
alongside the prior one rather than replacing it: each pass raises the
body's `html-extractor-data` script count by exactly one, so the second
pass leaves two, not one. -/
theorem C2_reprocessing_appends_second_script (doc out : Doc)
    (data : ExtractionData) (h : process_with_basic_tree doc = some (out, data)) :
    ∃ out2 data2, process_with_basic_tree out = some (out2, data2) ∧
      bodyDataScriptCount out = bodyDataScriptCount doc + 1 ∧
      bodyDataScriptCount out2 = bodyDataScriptCount out + 1 := by
  obtain ⟨hsome, hinc⟩ := process_tree_pass doc out data h
  obtain ⟨out2, data2, h2⟩ := process_tree_some_of_body out hsome
  obtain ⟨_, hinc2⟩ := process_tree_pass out out2 data2 h2
  exact ⟨out2, data2, h2, hinc, hinc2⟩

/-- C2 counterexample: on `<html><body></body></html>`, reprocessing the
renderer's output leaves a body containing two extraction script
elements, not the exactly one the claim asserts. -/
theorem C2_exactly_one_script_counterexample :
    twoPassBodyCount exampleDoc = some 2 ∧ twoPassBodyCount exampleDoc ≠ some 1 :=
  ⟨rfl, by decide⟩

/-- C2 witness: the amended theorem applied to the concrete document
`exampleDoc`. -/
theorem C2_reprocessing_appends_second_script_witness :
    process_with_basic_tree exampleDoc = some (exampleOut, exampleData) ∧
    (∃ out2 data2, process_with_basic_tree exampleOut = some (out2, data2) ∧
      bodyDataScriptCount exampleOut = bodyDataScriptCount exampleDoc + 1 ∧
      bodyDataScriptCount out2 = bodyDataScriptCount exampleOut + 1) :=
  ⟨rfl, C2_reprocessing_appends_second_script exampleDoc exampleOut exampleData rfl⟩

/-- C1: the claim states that `process_with_basic` never fails on any
input and creates a `body` when none exists.  The code evaluated at the
parse of the literal HTML `"hello"` (a bare text node: `html.parser`
synthesises no wrapper elements) instead reaches
`soup.html.append(...)` with `soup.html = None` and raises
`AttributeError`; likewise for `"<p>x</p>"`.  Both runs are the `none`
path of the model. -/
theorem C1_basic_renderer_crashes_without_html_element :
    process_with_basic [Node.text "hello"] = none ∧
    process_with_basic [Node.elem "p" [] [Node.text "x"]] = none :=
  ⟨rfl, rfl⟩

/-- C3: classification is total (`classify` and `process_html_action`
are total functions; `os.path.isfile` catches `OSError`/`ValueError`
and `is_url` catches `ValueError`, so the Python dispatch cannot throw
either), and a string for which the filesystem check succeeds is
classified `FilePath` and read as a file — with no condition on
`is_url`, since the existence check comes first. -/
theorem C3_file_existence_precedes_url_check (isfile : String → Bool)
    (use_playwright : Bool) (source : String) (hfile : isfile source = true) :
    classify isfile source = .filePath source ∧
    process_html_action use_playwright isfile source = .readFile source := by
  constructor
  · simp [classify, hfile]
  · simp [process_html_action, hfile]

/-- C3 witness: `"http://example.com/index.html"` is syntactically a
valid absolute URL, yet with a filesystem on which it exists it is
classified `FilePath` and read as a file. -/
theorem C3_file_existence_precedes_url_check_witness :
    ((fun _ => true) : String → Bool) "http://example.com/index.html" = true ∧
    is_url "http://example.com/index.html" = true ∧
    (classify (fun _ => true) "http://example.com/index.html" =
        .filePath "http://example.com/index.html" ∧
      process_html_action true (fun _ => true) "http://example.com/index.html" =
        .readFile "http://example.com/index.html") :=
  ⟨rfl, by decide,
    C3_file_existence_precedes_url_check (fun _ => true) true
      "http://example.com/index.html" rfl⟩

/-- C4: for a profile name the existence check rejects, the
profile-backed renderer proceeds with an ephemeral browser instance —
it completes with whatever that render produces rather than failing on
the missing profile — and its result carries no extraction data.
(Definition modelled from the spec; see `process_with_profile`.) -/
theorem C4_missing_profile_downgrades_to_ephemeral
    (profileExists : String → Bool) (render : Bool → Except RenderError String)
    (name html : String) (habs : profileExists name = false)
    (hrender : render false = .ok html) :
    process_with_profile profileExists render name = .ok ⟨html, none, false⟩ := by
  simp [process_with_profile, habs, hrender]

/-- C4 witness: a concrete absent profile with a succeeding ephemeral
render. -/
theorem C4_missing_profile_downgrades_to_ephemeral_witness :
    ((fun _ => false) : String → Bool) "no-such-profile" = false ∧
    process_with_profile (fun _ => false)
        (fun _ => .ok "<html></html>") "no-such-profile" =
      .ok ⟨"<html></html>", none, false⟩ :=
  ⟨rfl,
    C4_missing_profile_downgrades_to_ephemeral (fun _ => false)
      (fun _ => .ok "<html></html>") "no-such-profile" "<html></html>" rfl rfl⟩

/-- C7: in the browser-based renderer, an absent extraction element
defaults the payload to the empty-object JSON text (which decodes to the
empty mapping), and an undecodable payload yields a result whose
extraction data is the empty mapping — the decode error does not
propagate. -/
theorem C7_extraction_decode_failure_yields_empty_mapping
    (pageHtml payload : String) (hbad : json_loads payload = none) :
    extraction_payload_text none = "\x7b\x7d" ∧
    extraction_data_of none = .obj [] ∧
    extraction_data_of (some payload) = .obj [] ∧
    process_with_playwright_result pageHtml (some payload) =
      (pageHtml, .obj []) := by
  refine ⟨rfl, rfl, ?_, ?_⟩
  · simp [extraction_data_of, extraction_payload_text, hbad]
  · simp [process_with_playwright_result, extraction_data_of,
      extraction_payload_text, hbad]

/-- C7 witness: the concrete malformed payload `"not json"`. -/
theorem C7_extraction_decode_failure_yields_empty_mapping_witness :
    json_loads "not json" = none ∧
    (extraction_payload_text none = "\x7b\x7d" ∧
      extraction_data_of none = .obj [] ∧
      extraction_data_of (some "not json") = .obj [] ∧
      process_with_playwright_result "<html></html>" (some "not json") =
        ("<html></html>", .obj [])) :=
  ⟨rfl,
    C7_extraction_decode_failure_yields_empty_mapping "<html></html>"
      "not json" rfl⟩

/-- C8: when the filesystem holds no file at the injector path, the
constructor fails with the startup error (the code's
`FileNotFoundError`, which the spec's taxonomy names
`ConfigurationError`), and no computation that would run after a
successful construction — in particular no render — is ever reached:
mapping any such continuation over the construction result still yields
the same startup error. -/
theorem C8_missing_injector_is_startup_error (files : String → Option String)
    (playwright_available use_playwright headless : Bool) (script_dir : String)
    (habs : files (injector_path_of script_dir) = none) :
    extractor_init files playwright_available use_playwright headless script_dir =
      .error (.injectorNotFound (injector_path_of script_dir)) ∧
    ∀ {α : Type} (render : Extractor → α),
      (extractor_init files playwright_available use_playwright headless
          script_dir).map render =
        .error (.injectorNotFound (injector_path_of script_dir)) := by
  constructor
  · simp [extractor_init, habs]
  · intro α render
    simp [extractor_init, habs, Except.map]

/-- C8 witness: an empty filesystem. -/
theorem C8_missing_injector_is_startup_error_witness :
    ((fun _ => none) : String → Option String)
        (injector_path_of "/repo/pkg/html_extractor") = none ∧
    extractor_init (fun _ => none) true true true "/repo/pkg/html_extractor" =
      .error (.injectorNotFound (injector_path_of "/repo/pkg/html_extractor")) :=
  ⟨rfl,
    (C8_missing_injector_is_startup_error (fun _ => none) true true true
      "/repo/pkg/html_extractor" rfl).1⟩

/-- C9: when rendering raises, `extract_and_enhance` re-raises the same
error and the write log is exactly the one it started from — neither
the HTML file nor the extraction-data file is written, because
`process_html` completes before either save begins. -/
theorem C9_render_error_produces_no_writes (e : RenderError)
    (output_html : String) (output_data : Option String) (fs : List FileWrite) :
    extract_and_enhance (.error e) output_html output_data fs = (.error e, fs) :=
  rfl

/-! ### The serialised payload parses back: lemmas for the JSON round trip -/

set_option maxHeartbeats 1000000

theorem char_valid_nat (c : Char) :
    c.toNat < 0xd800 ∨ (0xdfff < c.toNat ∧ c.toNat < 0x110000) := c.valid

theorem hexVal_hexDigitChar : ∀ x, x < 16 → hexVal (hexDigitChar x) = some x := by decide

theorem hexVal4_hex4 (v : Nat) (hv : v < 0x10000) :
    hexVal4 (hexDigitChar (v / 4096 % 16)) (hexDigitChar (v / 256 % 16))
      (hexDigitChar (v / 16 % 16)) (hexDigitChar (v % 16)) = some v := by
  rw [hexVal4, hexVal_hexDigitChar _ (by omega), hexVal_hexDigitChar _ (by omega),
    hexVal_hexDigitChar _ (by omega), hexVal_hexDigitChar _ (by omega)]
  simp only [Option.some.injEq]
  omega

-- ### decimal rendering round trip

theorem digitVal_digitChar : ∀ x, x < 10 → digitVal (digitChar x) = some x := by decide

theorem natToDecAux_append (n : Nat) : ∀ acc : List Char,
    natToDecAux n acc = natToDecAux n [] ++ acc := by
  induction n using Nat.strong_induction_on with
  | _ n ih =>
    intro acc
    by_cases h : n = 0
    · subst h; simp [natToDecAux]
    · conv_lhs => rw [natToDecAux]
      conv_rhs => rw [natToDecAux]
      rw [dif_neg h, dif_neg h]
      have hlt : n / 10 < n := Nat.div_lt_self (Nat.pos_of_ne_zero h) (by decide)
      rw [ih (n / 10) hlt (digitChar (n % 10) :: acc), ih (n / 10) hlt [digitChar (n % 10)]]
      simp

theorem natToDec_digits (n : Nat) : ∀ c ∈ natToDec n, (digitVal c).isSome := by
  induction n using Nat.strong_induction_on with
  | _ n ih =>
    intro c hc
    by_cases h : n = 0
    · subst h; simp [natToDec] at hc; subst hc; decide
    · simp only [natToDec, if_neg h] at hc
      rw [natToDecAux, dif_neg h, natToDecAux_append] at hc
      have hlt : n / 10 < n := Nat.div_lt_self (Nat.pos_of_ne_zero h) (by decide)
      rcases List.mem_append.mp hc with hm | hm
      · by_cases h10 : n / 10 = 0
        · rw [h10] at hm; simp [natToDecAux] at hm
        · have := ih (n / 10) hlt c
          simp only [natToDec, if_neg h10] at this
          exact this hm
      · simp at hm
        subst hm
        rw [digitVal_digitChar _ (Nat.mod_lt _ (by omega))]
        rfl

theorem natToDec_fold (n : Nat) (hn : n ≠ 0) : ∀ a : Nat,
    foldDigits a (natToDec n) = a * 10 ^ (natToDec n).length + n := by
  induction n using Nat.strong_induction_on with
  | _ n ih =>
    intro a
    have hlt : n / 10 < n := Nat.div_lt_self (Nat.pos_of_ne_zero hn) (by decide)
    by_cases h10 : n / 10 = 0
    · -- single digit: n < 10
      have hn10 : n < 10 := by omega
      have hone : natToDec n = [digitChar n] := by
        simp only [natToDec, if_neg hn]
        rw [natToDecAux, dif_neg hn, h10]
        simp [natToDecAux, Nat.mod_eq_of_lt hn10]
      rw [hone]
      simp [foldDigits, digitVal_digitChar n hn10]
    · have hsplit : natToDec n = natToDec (n / 10) ++ [digitChar (n % 10)] := by
        simp only [natToDec, if_neg hn, if_neg h10]
        rw [natToDecAux, dif_neg hn, natToDecAux_append]
      rw [hsplit]
      have hrec := ih (n / 10) hlt h10 a
      simp only [foldDigits] at hrec ⊢
      rw [List.foldl_append, hrec]
      simp only [List.foldl, digitVal_digitChar _ (Nat.mod_lt _ (by omega))]
      simp only [Option.getD_some, List.length_append, List.length_singleton]
      rw [pow_succ]
      have := Nat.div_add_mod n 10
      ring_nf
      omega

theorem natToDec_head (n : Nat) :
    ∃ d ds dv, natToDec n = d :: ds ∧ digitVal d = some dv ∧
      (n ≠ 0 → d ≠ '0') ∧ (n = 0 → d = '0' ∧ ds = []) := by
  induction n using Nat.strong_induction_on with
  | _ n ih =>
    by_cases h : n = 0
    · subst h
      exact ⟨'0', [], 0, rfl, rfl, by simp, fun _ => ⟨rfl, rfl⟩⟩
    · have hlt : n / 10 < n := Nat.div_lt_self (Nat.pos_of_ne_zero h) (by decide)
      by_cases h10 : n / 10 = 0
      · have hn10 : n < 10 := by omega
        refine ⟨digitChar n, [], n, ?_, digitVal_digitChar n hn10, ?_, by simp [h]⟩
        · simp only [natToDec, if_neg h]
          rw [natToDecAux, dif_neg h, h10]
          simp [natToDecAux, Nat.mod_eq_of_lt hn10]
        · intro _
          have h1 : 1 ≤ n := Nat.pos_of_ne_zero h
          intro he
          interval_cases n <;> exact absurd he (by decide)
      · obtain ⟨d, ds, dv, hd1, hd2, hd3, _⟩ := ih (n / 10) hlt
        refine ⟨d, ds ++ [digitChar (n % 10)], dv, ?_, hd2, fun _ => hd3 h10, by simp [h]⟩
        simp only [natToDec, if_neg h]
        rw [natToDecAux, dif_neg h, natToDecAux_append]
        simp only [natToDec, if_neg h10] at hd1
        rw [hd1]
        simp

theorem takeDigits_run (ds : List Char) : ∀ (a : Nat) (rest : List Char),
    (∀ c ∈ ds, (digitVal c).isSome) →
    takeDigits a (ds ++ rest) = takeDigits (foldDigits a ds) rest := by
  induction ds with
  | nil => intro a rest _; simp [foldDigits]
  | cons c cs ih =>
    intro a rest hds
    have hc := hds c (by simp)
    cases hdv : digitVal c with
    | none => rw [hdv] at hc; simp at hc
    | some dv =>
      simp only [List.cons_append, takeDigits, hdv]
      rw [List.append_eq, ih (a * 10 + dv) rest (fun x hx => hds x (by simp [hx]))]
      simp [foldDigits, hdv]

theorem takeDigits_stop (a : Nat) (rest : List Char)
    (h : ∀ c, rest.head? = some c → digitVal c = none) :
    takeDigits a rest = (a, rest) := by
  cases rest with
  | nil => simp [takeDigits]
  | cons c rs =>
    have := h c rfl
    simp [takeDigits, this]

theorem parseNum_natToDec (n : Nat) (rest : List Char)
    (hrest : ∀ c, rest.head? = some c → digitVal c = none) :
    parseNum (natToDec n ++ rest) = some (n, rest) := by
  obtain ⟨d, ds, dv, hd1, hd2, hd3, hd4⟩ := natToDec_head n
  by_cases h0 : n = 0
  · obtain ⟨he, hs⟩ := hd4 h0
    subst h0
    rw [hd1, hs, he]
    cases rest with
    | nil => rfl
    | cons c rs =>
      have := hrest c rfl
      simp only [parseNum, this, List.cons_append, List.nil_append]
      rfl
  · rw [hd1]
    simp only [List.cons_append, parseNum, hd2]
    rw [if_neg (hd3 h0)]
    have hds : ∀ c ∈ ds, (digitVal c).isSome := by
      intro c hc
      exact natToDec_digits n c (by rw [hd1]; simp [hc])
    rw [takeDigits_run ds dv rest hds, takeDigits_stop _ rest hrest]
    have hfold := natToDec_fold n h0 0
    rw [hd1] at hfold
    simp only [foldDigits, List.foldl, hd2, Option.getD_some, Nat.zero_mul,
      Nat.zero_add] at hfold
    simp only [foldDigits]
    rw [hfold]

-- ### string literal round trip

theorem string_mk_data (s : String) : String.mk s.data = s := by cases s; rfl

theorem strTok_u_stuck (d1 d2 d3 d4 : Char) (tail : List Char) :
    strTok ('\\' :: 'u' :: d1 :: d2 :: d3 :: d4 :: tail) =
      (match hexVal4 d1 d2 d3 d4 with
       | none => StrTok.bad
       | some n =>
         if n < 0xd800 then .ch (Char.ofNat n) tail
         else if n ≤ 0xdbff then
           match tail with
           | s1 :: s2 :: m1 :: m2 :: m3 :: m4 :: rest4 =>
             if s1 = '\\' then
               if s2 = 'u' then
                 match hexVal4 m1 m2 m3 m4 with
                 | none => .bad
                 | some m =>
                   if 0xdc00 ≤ m ∧ m ≤ 0xdfff then
                     .ch (Char.ofNat (0x10000 + (n - 0xd800) * 0x400 + (m - 0xdc00))) rest4
                   else .bad
               else .bad
             else .bad
           | _ => .bad
         else if n ≤ 0xdfff then .bad
         else .ch (Char.ofNat n) tail) := rfl

theorem strTok_u_low (d1 d2 d3 d4 : Char) (n : Nat) (tail : List Char)
    (h : hexVal4 d1 d2 d3 d4 = some n) (hn : n < 0xd800) :
    strTok ('\\' :: 'u' :: d1 :: d2 :: d3 :: d4 :: tail) = .ch (Char.ofNat n) tail := by
  rw [strTok_u_stuck, h]
  simp [hn]

theorem strTok_u_high (d1 d2 d3 d4 : Char) (n : Nat) (tail : List Char)
    (h : hexVal4 d1 d2 d3 d4 = some n) (hn1 : 0xdfff < n) :
    strTok ('\\' :: 'u' :: d1 :: d2 :: d3 :: d4 :: tail) = .ch (Char.ofNat n) tail := by
  rw [strTok_u_stuck, h]
  simp [show ¬ n < 0xd800 by omega, show ¬ n ≤ 0xdbff by omega, show ¬ n ≤ 0xdfff by omega]

theorem strTok_u_pair (d1 d2 d3 d4 m1 m2 m3 m4 : Char) (n m : Nat) (tail : List Char)
    (hd : hexVal4 d1 d2 d3 d4 = some n) (hm : hexVal4 m1 m2 m3 m4 = some m)
    (hn1 : 0xd800 ≤ n) (hn2 : n ≤ 0xdbff) (hm1 : 0xdc00 ≤ m) (hm2 : m ≤ 0xdfff) :
    strTok ('\\' :: 'u' :: d1 :: d2 :: d3 :: d4 :: '\\' :: 'u' :: m1 :: m2 :: m3 :: m4 :: tail) =
      .ch (Char.ofNat (0x10000 + (n - 0xd800) * 0x400 + (m - 0xdc00))) tail := by
  rw [strTok_u_stuck, hd]
  simp [show ¬ n < 0xd800 by omega, show n ≤ 0xdbff from hn2, hm,
    show 0xdc00 ≤ m ∧ m ≤ 0xdfff from ⟨hm1, hm2⟩]

theorem strTok_escChar (c : Char) (tail : List Char) :
    strTok (escChar c ++ tail) = .ch c tail := by
  by_cases h1 : c = '\\'
  · subst h1; rfl
  by_cases h2 : c = '"'
  · subst h2; rfl
  by_cases h3 : c = Char.ofNat 8
  · subst h3; rfl
  by_cases h4 : c = Char.ofNat 9
  · subst h4; rfl
  by_cases h5 : c = Char.ofNat 10
  · subst h5; rfl
  by_cases h6 : c = Char.ofNat 12
  · subst h6; rfl
  by_cases h7 : c = Char.ofNat 13
  · subst h7; rfl
  have hesc0 : escChar c =
      (if c.toNat < 0x20 then '\\' :: 'u' :: hex4 c.toNat
       else if c.toNat ≤ 0x7e then [c]
       else if c.toNat < 0x10000 then '\\' :: 'u' :: hex4 c.toNat
       else
         ('\\' :: 'u' :: hex4 (0xd800 + (c.toNat - 0x10000) / 0x400)) ++
         ('\\' :: 'u' :: hex4 (0xdc00 + (c.toNat - 0x10000) % 0x400))) := by
    rw [escChar, if_neg h1, if_neg h2, if_neg h3, if_neg h4, if_neg h5, if_neg h6, if_neg h7]
  by_cases hlow : c.toNat < 0x20
  · rw [hesc0, if_pos hlow]
    simp only [hex4, List.cons_append, List.nil_append]
    rw [strTok_u_low _ _ _ _ c.toNat tail (hexVal4_hex4 _ (by omega)) (by omega),
      Char.ofNat_toNat]
  by_cases hmid : c.toNat ≤ 0x7e
  · rw [hesc0, if_neg hlow, if_pos hmid]
    simp only [List.cons_append, List.nil_append]
    simp [strTok, h1, h2, hlow]
  have hval := char_valid_nat c
  by_cases hbmp : c.toNat < 0x10000
  · rw [hesc0, if_neg hlow, if_neg hmid, if_pos hbmp]
    simp only [hex4, List.cons_append, List.nil_append]
    rcases hval with hv | ⟨hv1, hv2⟩
    · rw [strTok_u_low _ _ _ _ c.toNat tail (hexVal4_hex4 _ (by omega)) hv,
        Char.ofNat_toNat]
    · rw [strTok_u_high _ _ _ _ c.toNat tail (hexVal4_hex4 _ (by omega)) hv1,
        Char.ofNat_toNat]
  · rw [hesc0, if_neg hlow, if_neg hmid, if_neg hbmp]
    have hv2 : c.toNat < 0x110000 := by
      rcases hval with hv | ⟨hv1, hv2⟩
      · omega
      · exact hv2
    simp only [hex4, List.cons_append, List.nil_append, List.append_assoc]
    rw [strTok_u_pair _ _ _ _ _ _ _ _ (0xd800 + (c.toNat - 0x10000) / 0x400)
      (0xdc00 + (c.toNat - 0x10000) % 0x400) tail
      (hexVal4_hex4 _ (by omega)) (hexVal4_hex4 _ (by omega))
      (by omega) (by omega) (by omega) (by omega)]
    have heq : 0x10000 + ((0xd800 + (c.toNat - 0x10000) / 0x400) - 0xd800) * 0x400 +
        ((0xdc00 + (c.toNat - 0x10000) % 0x400) - 0xdc00) = c.toNat := by omega
    rw [heq, Char.ofNat_toNat]

theorem parseStrBody_done (acc l rest : List Char) (h : strTok l = .done rest) :
    parseStrBody acc l = some (String.mk acc.reverse, rest) := by
  rw [parseStrBody]
  split <;> rename_i heq <;> rw [h] at heq
  · injection heq with e; subst e; rfl
  · injection heq
  · injection heq

theorem parseStrBody_ch (acc l rest : List Char) (c : Char) (h : strTok l = .ch c rest) :
    parseStrBody acc l = parseStrBody (c :: acc) rest := by
  rw [parseStrBody]
  split <;> rename_i heq <;> rw [h] at heq
  · injection heq
  · injection heq with e1 e2; subst e1; subst e2; rfl
  · injection heq

theorem parseStrBody_escBody (s : List Char) : ∀ acc tail : List Char,
    parseStrBody acc (escBody s ++ '"' :: tail) = some (String.mk (acc.reverse ++ s), tail) := by
  induction s with
  | nil =>
    intro acc tail
    rw [show escBody [] ++ '"' :: tail = '"' :: tail from rfl]
    rw [parseStrBody_done acc ('"' :: tail) tail rfl]
    simp
  | cons c cs ih =>
    intro acc tail
    rw [show escBody (c :: cs) ++ '"' :: tail = escChar c ++ (escBody cs ++ '"' :: tail) from by
      simp [escBody, List.append_assoc]]
    rw [parseStrBody_ch acc _ _ c (strTok_escChar c _)]
    rw [ih (c :: acc) tail]
    simp

theorem parseStrBody_strLit (s : String) (tail : List Char) :
    parseStrBody [] (escBody s.data ++ '"' :: tail) = some (s, tail) := by
  rw [parseStrBody_escBody]
  simp [string_mk_data]

theorem parseStrBody_plainList (p : List Char) : ∀ acc X,
    (∀ c ∈ p, c ≠ '"' ∧ c ≠ '\\' ∧ ¬ c.toNat < 0x20) →
    parseStrBody acc (p ++ '"' :: X) = some (String.mk (acc.reverse ++ p), X) := by
  induction p with
  | nil =>
    intro acc X _
    rw [show ([] : List Char) ++ '"' :: X = '"' :: X from rfl]
    rw [parseStrBody_done acc ('"' :: X) X rfl]
    simp
  | cons c cs ih =>
    intro acc X hp
    obtain ⟨hc1, hc2, hc3⟩ := hp c (by simp)
    have htok : strTok ((c :: cs) ++ '"' :: X) = .ch c (cs ++ '"' :: X) := by
      simp [strTok, hc1, hc2, hc3]
    rw [show (c :: cs) ++ '"' :: X = c :: (cs ++ '"' :: X) from rfl] at htok
    rw [show (c :: cs) ++ '"' :: X = c :: (cs ++ '"' :: X) from rfl]
    rw [parseStrBody_ch acc _ _ c htok]
    rw [ih (c :: acc) X (fun x hx => hp x (by simp [hx]))]
    simp

-- ### whitespace and dispatch step lemmas

theorem skipWs_space (l : List Char) : skipWs (' ' :: l) = skipWs l := rfl

theorem skipWs_quote (l : List Char) : skipWs ('"' :: l) = '"' :: l := rfl

theorem skipWs_lbrace (l : List Char) : skipWs (lbrace :: l) = lbrace :: l := rfl

theorem skipWs_rbrace (l : List Char) : skipWs (rbrace :: l) = rbrace :: l := rfl

theorem skipWs_colon (l : List Char) : skipWs (':' :: l) = ':' :: l := rfl

theorem skipWs_comma (l : List Char) : skipWs (',' :: l) = ',' :: l := rfl

theorem skipWs_t (l : List Char) : skipWs ('t' :: l) = 't' :: l := rfl

theorem skipWs_f (l : List Char) : skipWs ('f' :: l) = 'f' :: l := rfl

theorem pvC_false (f : Nat) (X : List Char) :
    parseValueCore (f + 1) ('f' :: 'a' :: 'l' :: 's' :: 'e' :: X) = some (Json.bool false, X) := rfl

theorem pvC_true (f : Nat) (X : List Char) :
    parseValueCore (f + 1) ('t' :: 'r' :: 'u' :: 'e' :: X) = some (Json.bool true, X) := rfl

theorem pv_step (f : Nat) (s : List Char) :
    parseValue (f + 1) s = parseValueCore f (skipWs s) := rfl

theorem pvC_quote (f : Nat) (body : List Char) :
    parseValueCore (f + 1) ('"' :: body) =
      (match parseStrBody [] body with
       | some (str, r) => some (Json.str str, r)
       | none => none) := rfl

theorem pvC_lbrace (f : Nat) (X : List Char) :
    parseValueCore (f + 1) (lbrace :: X) = parseObjBody f (skipWs X) := rfl

theorem pOB_quote (f : Nat) (X : List Char) :
    parseObjBody (f + 1) ('"' :: X) =
      (match parseMembers f ('"' :: X) with
       | some (ms, r) => some (Json.obj ms, r)
       | none => none) := rfl

theorem pM_quote (f : Nat) (body : List Char) :
    parseMembers (f + 1) ('"' :: body) =
      (match parseStrBody [] body with
       | none => none
       | some (k, r1) => parseMemberTail f k (skipWs r1)) := rfl

theorem pMT_colon (f : Nat) (k : String) (X : List Char) :
    parseMemberTail (f + 1) k (':' :: X) =
      (match parseValue f X with
       | none => none
       | some (v, r3) => parseMemberSep f k v (skipWs r3)) := rfl

theorem pMS_comma (f : Nat) (k : String) (v : Json) (X : List Char) :
    parseMemberSep (f + 1) k v (',' :: X) =
      (match parseMembers f (skipWs X) with
       | some (ms, r) => some ((k, v) :: ms, r)
       | none => none) := rfl

theorem pMS_rbrace (f : Nat) (k : String) (v : Json) (X : List Char) :
    parseMemberSep (f + 1) k v (rbrace :: X) = some ([(k, v)], X) := rfl

theorem pvC_bool (f : Nat) (b : Bool) (X : List Char) :
    parseValueCore (f + 1) ((if b then "true".data else "false".data) ++ X) =
      some (Json.bool b, X) := by
  cases b <;> rfl

theorem skipWs_boolLit (b : Bool) (X : List Char) :
    skipWs ((if b then "true".data else "false".data) ++ X) =
      (if b then "true".data else "false".data) ++ X := by
  cases b <;> rfl

-- ### digit branch facts

theorem digitVal_isDigit (c : Char) (dv : Nat) (h : digitVal c = some dv) :
    '0' ≤ c ∧ c ≤ '9' := by
  by_cases hc : '0' ≤ c ∧ c ≤ '9'
  · exact hc
  · rw [digitVal, if_neg hc] at h
    exact absurd h (by simp)

theorem digitVal_comma : digitVal ',' = none := rfl

theorem digitVal_rbrace : digitVal rbrace = none := rfl

theorem digit_not_ws (c : Char) (h : '0' ≤ c ∧ c ≤ '9') : isJsonWs c = false := by
  have hne : ¬(c = ' ' ∨ c = Char.ofNat 9 ∨ c = Char.ofNat 10 ∨ c = Char.ofNat 13) := by
    rintro (rfl | rfl | rfl | rfl) <;> exact absurd h (by decide)
  exact decide_eq_false hne

theorem skipWs_natToDec (n : Nat) (rest : List Char) :
    skipWs (natToDec n ++ rest) = natToDec n ++ rest := by
  obtain ⟨d, ds, dv, hd1, hd2, _, _⟩ := natToDec_head n
  rw [hd1, List.cons_append, skipWs,
    digit_not_ws d (digitVal_isDigit d dv hd2)]
  simp

theorem pvC_unfold (f : Nat) (c : Char) (rest : List Char) :
    parseValueCore (f + 1) (c :: rest) =
      (if c = '"' then
        match parseStrBody [] rest with
        | some (str, r) => some (Json.str str, r)
        | none => none
      else if c = lbrace then parseObjBody f (skipWs rest)
      else if c = '[' then parseArrBody f (skipWs rest)
      else if c = 't' then
        match rest with
        | 'r' :: 'u' :: 'e' :: r => some (Json.bool true, r)
        | _ => none
      else if c = 'f' then
        match rest with
        | 'a' :: 'l' :: 's' :: 'e' :: r => some (Json.bool false, r)
        | _ => none
      else if c = 'n' then
        match rest with
        | 'u' :: 'l' :: 'l' :: r => some (Json.null, r)
        | _ => none
      else
        match parseNum (c :: rest) with
        | some (n, r) => some (Json.num n, r)
        | none => none) := rfl

theorem pvC_num (f n : Nat) (c' : Char) (X : List Char) (hc' : digitVal c' = none) :
    parseValueCore (f + 1) (natToDec n ++ (c' :: X)) = some (Json.num n, c' :: X) := by
  obtain ⟨d, ds, dv, hd1, hd2, _, _⟩ := natToDec_head n
  have h09 := digitVal_isDigit d dv hd2
  rw [hd1, List.cons_append, pvC_unfold]
  rw [if_neg (fun e => absurd (e ▸ h09) (by decide)),
    if_neg (fun e => absurd (e ▸ h09) (by decide)),
    if_neg (fun e => absurd (e ▸ h09) (by decide)),
    if_neg (fun e => absurd (e ▸ h09) (by decide)),
    if_neg (fun e => absurd (e ▸ h09) (by decide)),
    if_neg (fun e => absurd (e ▸ h09) (by decide))]
  rw [show d :: (ds ++ c' :: X) = (d :: ds) ++ c' :: X from rfl, ← hd1]
  rw [parseNum_natToDec n (c' :: X) (fun c h => by
    simp only [List.head?, Option.some.injEq] at h
    exact h ▸ hc')]

theorem hseg0 : ("\x7b\"metadata\": \x7b\"title\": \"").data = [lbrace, '\"', 'm', 'e', 't', 'a', 'd', 'a', 't', 'a', '\"', ':', ' ', lbrace, '\"', 't', 'i', 't', 'l', 'e', '\"', ':', ' ', '\"'] := rfl

theorem hseg1 : ("\x7d, \"statistics\": \x7b\"headings\": ").data = [rbrace, ',', ' ', '\"', 's', 't', 'a', 't', 'i', 's', 't', 'i', 'c', 's', '\"', ':', ' ', lbrace, '\"', 'h', 'e', 'a', 'd', 'i', 'n', 'g', 's', '\"', ':', ' '] := rfl

theorem hseg2 : (", \"links\": ").data = [',', ' ', '\"', 'l', 'i', 'n', 'k', 's', '\"', ':', ' '] := rfl

theorem hseg3 : (", \"images\": ").data = [',', ' ', '\"', 'i', 'm', 'a', 'g', 'e', 's', '\"', ':', ' '] := rfl

theorem hseg4 : (", \"tables\": ").data = [',', ' ', '\"', 't', 'a', 'b', 'l', 'e', 's', '\"', ':', ' '] := rfl

theorem hseg5 : (", \"paragraphs\": ").data = [',', ' ', '\"', 'p', 'a', 'r', 'a', 'g', 'r', 'a', 'p', 'h', 's', '\"', ':', ' '] := rfl

theorem hseg6 : ("\x7d, \"enhancementApplied\": ").data = [rbrace, ',', ' ', '\"', 'e', 'n', 'h', 'a', 'n', 'c', 'e', 'm', 'e', 'n', 't', 'A', 'p', 'p', 'l', 'i', 'e', 'd', '\"', ':', ' '] := rfl

theorem hseg7 : ("\x7d").data = [rbrace] := rfl

theorem key_metadata (Y : List Char) :
    parseStrBody [] ('m' :: 'e' :: 't' :: 'a' :: 'd' :: 'a' :: 't' :: 'a' :: '"' :: Y) = some ("metadata", Y) :=
  parseStrBody_plainList ['m','e','t','a','d','a','t','a'] [] Y (by decide)

theorem key_title (Y : List Char) :
    parseStrBody [] ('t' :: 'i' :: 't' :: 'l' :: 'e' :: '"' :: Y) = some ("title", Y) :=
  parseStrBody_plainList ['t','i','t','l','e'] [] Y (by decide)

theorem key_statistics (Y : List Char) :
    parseStrBody [] ('s' :: 't' :: 'a' :: 't' :: 'i' :: 's' :: 't' :: 'i' :: 'c' :: 's' :: '"' :: Y) = some ("statistics", Y) :=
  parseStrBody_plainList ['s','t','a','t','i','s','t','i','c','s'] [] Y (by decide)

theorem key_headings (Y : List Char) :
    parseStrBody [] ('h' :: 'e' :: 'a' :: 'd' :: 'i' :: 'n' :: 'g' :: 's' :: '"' :: Y) = some ("headings", Y) :=
  parseStrBody_plainList ['h','e','a','d','i','n','g','s'] [] Y (by decide)

theorem key_links (Y : List Char) :
    parseStrBody [] ('l' :: 'i' :: 'n' :: 'k' :: 's' :: '"' :: Y) = some ("links", Y) :=
  parseStrBody_plainList ['l','i','n','k','s'] [] Y (by decide)

theorem key_images (Y : List Char) :
    parseStrBody [] ('i' :: 'm' :: 'a' :: 'g' :: 'e' :: 's' :: '"' :: Y) = some ("images", Y) :=
  parseStrBody_plainList ['i','m','a','g','e','s'] [] Y (by decide)

theorem key_tables (Y : List Char) :
    parseStrBody [] ('t' :: 'a' :: 'b' :: 'l' :: 'e' :: 's' :: '"' :: Y) = some ("tables", Y) :=
  parseStrBody_plainList ['t','a','b','l','e','s'] [] Y (by decide)

theorem key_paragraphs (Y : List Char) :
    parseStrBody [] ('p' :: 'a' :: 'r' :: 'a' :: 'g' :: 'r' :: 'a' :: 'p' :: 'h' :: 's' :: '"' :: Y) = some ("paragraphs", Y) :=
  parseStrBody_plainList ['p','a','r','a','g','r','a','p','h','s'] [] Y (by decide)

theorem key_enhancementApplied (Y : List Char) :
    parseStrBody [] ('e' :: 'n' :: 'h' :: 'a' :: 'n' :: 'c' :: 'e' :: 'm' :: 'e' :: 'n' :: 't' :: 'A' :: 'p' :: 'p' :: 'l' :: 'i' :: 'e' :: 'd' :: '"' :: Y) = some ("enhancementApplied", Y) :=
  parseStrBody_plainList ['e','n','h','a','n','c','e','m','e','n','t','A','p','p','l','i','e','d'] [] Y (by decide)

-- ### the full round trip on the extraction mapping

theorem parseValue_dumps (f : Nat) (d : ExtractionData) (rest : List Char) :
    parseValue (f + 27) (dumpsDataChars d ++ rest) = some (jsonOfData d, rest) := by
  cases hb : d.enhancementApplied with
  | false =>
    have hspine : dumpsDataChars d ++ rest = lbrace :: '\"' :: 'm' :: 'e' :: 't' :: 'a' :: 'd' :: 'a' :: 't' :: 'a' :: '\"' :: ':' :: ' ' :: lbrace :: '\"' :: 't' :: 'i' :: 't' :: 'l' :: 'e' :: '\"' :: ':' :: ' ' :: '\"' :: (escBody d.metadata.title.data ++ ('\"' :: rbrace :: ',' :: ' ' :: '\"' :: 's' :: 't' :: 'a' :: 't' :: 'i' :: 's' :: 't' :: 'i' :: 'c' :: 's' :: '\"' :: ':' :: ' ' :: lbrace :: '\"' :: 'h' :: 'e' :: 'a' :: 'd' :: 'i' :: 'n' :: 'g' :: 's' :: '\"' :: ':' :: ' ' :: (natToDec d.statistics.headings ++ (',' :: ' ' :: '\"' :: 'l' :: 'i' :: 'n' :: 'k' :: 's' :: '\"' :: ':' :: ' ' :: (natToDec d.statistics.links ++ (',' :: ' ' :: '\"' :: 'i' :: 'm' :: 'a' :: 'g' :: 'e' :: 's' :: '\"' :: ':' :: ' ' :: (natToDec d.statistics.images ++ (',' :: ' ' :: '\"' :: 't' :: 'a' :: 'b' :: 'l' :: 'e' :: 's' :: '\"' :: ':' :: ' ' :: (natToDec d.statistics.tables ++ (',' :: ' ' :: '\"' :: 'p' :: 'a' :: 'r' :: 'a' :: 'g' :: 'r' :: 'a' :: 'p' :: 'h' :: 's' :: '\"' :: ':' :: ' ' :: (natToDec d.statistics.paragraphs ++ (rbrace :: ',' :: ' ' :: '\"' :: 'e' :: 'n' :: 'h' :: 'a' :: 'n' :: 'c' :: 'e' :: 'm' :: 'e' :: 'n' :: 't' :: 'A' :: 'p' :: 'p' :: 'l' :: 'i' :: 'e' :: 'd' :: '\"' :: ':' :: ' ' :: 'f' :: 'a' :: 'l' :: 's' :: 'e' :: rbrace :: rest)))))))))))) := by
      simp only [dumpsDataChars, strLitChars, hb, List.append_assoc, List.cons_append,
        List.nil_append]
      rfl
    rw [hspine]
    try simp only [show f + 27 = f + 26 + 1 from rfl]
    try simp only [pv_step, pvC_quote, pvC_lbrace, pvC_false, pvC_true, pvC_num, pOB_quote, pM_quote, pMT_colon, pMS_comma, pMS_rbrace, key_metadata, key_title, key_statistics, key_headings, key_links, key_images, key_tables, key_paragraphs, key_enhancementApplied, skipWs_space, skipWs_quote, skipWs_lbrace, skipWs_rbrace, skipWs_colon, skipWs_comma, skipWs_t, skipWs_f, skipWs_natToDec, parseStrBody_strLit, digitVal_comma, digitVal_rbrace]
    try simp only [show f + 26 = f + 25 + 1 from rfl]
    try simp only [pv_step, pvC_quote, pvC_lbrace, pvC_false, pvC_true, pvC_num, pOB_quote, pM_quote, pMT_colon, pMS_comma, pMS_rbrace, key_metadata, key_title, key_statistics, key_headings, key_links, key_images, key_tables, key_paragraphs, key_enhancementApplied, skipWs_space, skipWs_quote, skipWs_lbrace, skipWs_rbrace, skipWs_colon, skipWs_comma, skipWs_t, skipWs_f, skipWs_natToDec, parseStrBody_strLit, digitVal_comma, digitVal_rbrace]
    try simp only [show f + 25 = f + 24 + 1 from rfl]
    try simp only [pv_step, pvC_quote, pvC_lbrace, pvC_false, pvC_true, pvC_num, pOB_quote, pM_quote, pMT_colon, pMS_comma, pMS_rbrace, key_metadata, key_title, key_statistics, key_headings, key_links, key_images, key_tables, key_paragraphs, key_enhancementApplied, skipWs_space, skipWs_quote, skipWs_lbrace, skipWs_rbrace, skipWs_colon, skipWs_comma, skipWs_t, skipWs_f, skipWs_natToDec, parseStrBody_strLit, digitVal_comma, digitVal_rbrace]
    try simp only [show f + 24 = f + 23 + 1 from rfl]
    try simp only [pv_step, pvC_quote, pvC_lbrace, pvC_false, pvC_true, pvC_num, pOB_quote, pM_quote, pMT_colon, pMS_comma, pMS_rbrace, key_metadata, key_title, key_statistics, key_headings, key_links, key_images, key_tables, key_paragraphs, key_enhancementApplied, skipWs_space, skipWs_quote, skipWs_lbrace, skipWs_rbrace, skipWs_colon, skipWs_comma, skipWs_t, skipWs_f, skipWs_natToDec, parseStrBody_strLit, digitVal_comma, digitVal_rbrace]
    try simp only [show f + 23 = f + 22 + 1 from rfl]
    try simp only [pv_step, pvC_quote, pvC_lbrace, pvC_false, pvC_true, pvC_num, pOB_quote, pM_quote, pMT_colon, pMS_comma, pMS_rbrace, key_metadata, key_title, key_statistics, key_headings, key_links, key_images, key_tables, key_paragraphs, key_enhancementApplied, skipWs_space, skipWs_quote, skipWs_lbrace, skipWs_rbrace, skipWs_colon, skipWs_comma, skipWs_t, skipWs_f, skipWs_natToDec, parseStrBody_strLit, digitVal_comma, digitVal_rbrace]
    try simp only [show f + 22 = f + 21 + 1 from rfl]
    try simp only [pv_step, pvC_quote, pvC_lbrace, pvC_false, pvC_true, pvC_num, pOB_quote, pM_quote, pMT_colon, pMS_comma, pMS_rbrace, key_metadata, key_title, key_statistics, key_headings, key_links, key_images, key_tables, key_paragraphs, key_enhancementApplied, skipWs_space, skipWs_quote, skipWs_lbrace, skipWs_rbrace, skipWs_colon, skipWs_comma, skipWs_t, skipWs_f, skipWs_natToDec, parseStrBody_strLit, digitVal_comma, digitVal_rbrace]
    try simp only [show f + 21 = f + 20 + 1 from rfl]
    try simp only [pv_step, pvC_quote, pvC_lbrace, pvC_false, pvC_true, pvC_num, pOB_quote, pM_quote, pMT_colon, pMS_comma, pMS_rbrace, key_metadata, key_title, key_statistics, key_headings, key_links, key_images, key_tables, key_paragraphs, key_enhancementApplied, skipWs_space, skipWs_quote, skipWs_lbrace, skipWs_rbrace, skipWs_colon, skipWs_comma, skipWs_t, skipWs_f, skipWs_natToDec, parseStrBody_strLit, digitVal_comma, digitVal_rbrace]
    try simp only [show f + 20 = f + 19 + 1 from rfl]
    try simp only [pv_step, pvC_quote, pvC_lbrace, pvC_false, pvC_true, pvC_num, pOB_quote, pM_quote, pMT_colon, pMS_comma, pMS_rbrace, key_metadata, key_title, key_statistics, key_headings, key_links, key_images, key_tables, key_paragraphs, key_enhancementApplied, skipWs_space, skipWs_quote, skipWs_lbrace, skipWs_rbrace, skipWs_colon, skipWs_comma, skipWs_t, skipWs_f, skipWs_natToDec, parseStrBody_strLit, digitVal_comma, digitVal_rbrace]
    try simp only [show f + 19 = f + 18 + 1 from rfl]
    try simp only [pv_step, pvC_quote, pvC_lbrace, pvC_false, pvC_true, pvC_num, pOB_quote, pM_quote, pMT_colon, pMS_comma, pMS_rbrace, key_metadata, key_title, key_statistics, key_headings, key_links, key_images, key_tables, key_paragraphs, key_enhancementApplied, skipWs_space, skipWs_quote, skipWs_lbrace, skipWs_rbrace, skipWs_colon, skipWs_comma, skipWs_t, skipWs_f, skipWs_natToDec, parseStrBody_strLit, digitVal_comma, digitVal_rbrace]
    try simp only [show f + 18 = f + 17 + 1 from rfl]
    try simp only [pv_step, pvC_quote, pvC_lbrace, pvC_false, pvC_true, pvC_num, pOB_quote, pM_quote, pMT_colon, pMS_comma, pMS_rbrace, key_metadata, key_title, key_statistics, key_headings, key_links, key_images, key_tables, key_paragraphs, key_enhancementApplied, skipWs_space, skipWs_quote, skipWs_lbrace, skipWs_rbrace, skipWs_colon, skipWs_comma, skipWs_t, skipWs_f, skipWs_natToDec, parseStrBody_strLit, digitVal_comma, digitVal_rbrace]
    try simp only [show f + 17 = f + 16 + 1 from rfl]
    try simp only [pv_step, pvC_quote, pvC_lbrace, pvC_false, pvC_true, pvC_num, pOB_quote, pM_quote, pMT_colon, pMS_comma, pMS_rbrace, key_metadata, key_title, key_statistics, key_headings, key_links, key_images, key_tables, key_paragraphs, key_enhancementApplied, skipWs_space, skipWs_quote, skipWs_lbrace, skipWs_rbrace, skipWs_colon, skipWs_comma, skipWs_t, skipWs_f, skipWs_natToDec, parseStrBody_strLit, digitVal_comma, digitVal_rbrace]
    try simp only [show f + 16 = f + 15 + 1 from rfl]
    try simp only [pv_step, pvC_quote, pvC_lbrace, pvC_false, pvC_true, pvC_num, pOB_quote, pM_quote, pMT_colon, pMS_comma, pMS_rbrace, key_metadata, key_title, key_statistics, key_headings, key_links, key_images, key_tables, key_paragraphs, key_enhancementApplied, skipWs_space, skipWs_quote, skipWs_lbrace, skipWs_rbrace, skipWs_colon, skipWs_comma, skipWs_t, skipWs_f, skipWs_natToDec, parseStrBody_strLit, digitVal_comma, digitVal_rbrace]
    try simp only [show f + 15 = f + 14 + 1 from rfl]
    try simp only [pv_step, pvC_quote, pvC_lbrace, pvC_false, pvC_true, pvC_num, pOB_quote, pM_quote, pMT_colon, pMS_comma, pMS_rbrace, key_metadata, key_title, key_statistics, key_headings, key_links, key_images, key_tables, key_paragraphs, key_enhancementApplied, skipWs_space, skipWs_quote, skipWs_lbrace, skipWs_rbrace, skipWs_colon, skipWs_comma, skipWs_t, skipWs_f, skipWs_natToDec, parseStrBody_strLit, digitVal_comma, digitVal_rbrace]
    try simp only [show f + 14 = f + 13 + 1 from rfl]
    try simp only [pv_step, pvC_quote, pvC_lbrace, pvC_false, pvC_true, pvC_num, pOB_quote, pM_quote, pMT_colon, pMS_comma, pMS_rbrace, key_metadata, key_title, key_statistics, key_headings, key_links, key_images, key_tables, key_paragraphs, key_enhancementApplied, skipWs_space, skipWs_quote, skipWs_lbrace, skipWs_rbrace, skipWs_colon, skipWs_comma, skipWs_t, skipWs_f, skipWs_natToDec, parseStrBody_strLit, digitVal_comma, digitVal_rbrace]
    try simp only [show f + 13 = f + 12 + 1 from rfl]
    try simp only [pv_step, pvC_quote, pvC_lbrace, pvC_false, pvC_true, pvC_num, pOB_quote, pM_quote, pMT_colon, pMS_comma, pMS_rbrace, key_metadata, key_title, key_statistics, key_headings, key_links, key_images, key_tables, key_paragraphs, key_enhancementApplied, skipWs_space, skipWs_quote, skipWs_lbrace, skipWs_rbrace, skipWs_colon, skipWs_comma, skipWs_t, skipWs_f, skipWs_natToDec, parseStrBody_strLit, digitVal_comma, digitVal_rbrace]
    try simp only [show f + 12 = f + 11 + 1 from rfl]
    try simp only [pv_step, pvC_quote, pvC_lbrace, pvC_false, pvC_true, pvC_num, pOB_quote, pM_quote, pMT_colon, pMS_comma, pMS_rbrace, key_metadata, key_title, key_statistics, key_headings, key_links, key_images, key_tables, key_paragraphs, key_enhancementApplied, skipWs_space, skipWs_quote, skipWs_lbrace, skipWs_rbrace, skipWs_colon, skipWs_comma, skipWs_t, skipWs_f, skipWs_natToDec, parseStrBody_strLit, digitVal_comma, digitVal_rbrace]
    try simp only [show f + 11 = f + 10 + 1 from rfl]
    try simp only [pv_step, pvC_quote, pvC_lbrace, pvC_false, pvC_true, pvC_num, pOB_quote, pM_quote, pMT_colon, pMS_comma, pMS_rbrace, key_metadata, key_title, key_statistics, key_headings, key_links, key_images, key_tables, key_paragraphs, key_enhancementApplied, skipWs_space, skipWs_quote, skipWs_lbrace, skipWs_rbrace, skipWs_colon, skipWs_comma, skipWs_t, skipWs_f, skipWs_natToDec, parseStrBody_strLit, digitVal_comma, digitVal_rbrace]
    try simp only [show f + 10 = f + 9 + 1 from rfl]
    try simp only [pv_step, pvC_quote, pvC_lbrace, pvC_false, pvC_true, pvC_num, pOB_quote, pM_quote, pMT_colon, pMS_comma, pMS_rbrace, key_metadata, key_title, key_statistics, key_headings, key_links, key_images, key_tables, key_paragraphs, key_enhancementApplied, skipWs_space, skipWs_quote, skipWs_lbrace, skipWs_rbrace, skipWs_colon, skipWs_comma, skipWs_t, skipWs_f, skipWs_natToDec, parseStrBody_strLit, digitVal_comma, digitVal_rbrace]
    try simp only [show f + 9 = f + 8 + 1 from rfl]
    try simp only [pv_step, pvC_quote, pvC_lbrace, pvC_false, pvC_true, pvC_num, pOB_quote, pM_quote, pMT_colon, pMS_comma, pMS_rbrace, key_metadata, key_title, key_statistics, key_headings, key_links, key_images, key_tables, key_paragraphs, key_enhancementApplied, skipWs_space, skipWs_quote, skipWs_lbrace, skipWs_rbrace, skipWs_colon, skipWs_comma, skipWs_t, skipWs_f, skipWs_natToDec, parseStrBody_strLit, digitVal_comma, digitVal_rbrace]
    try simp only [show f + 8 = f + 7 + 1 from rfl]
    try simp only [pv_step, pvC_quote, pvC_lbrace, pvC_false, pvC_true, pvC_num, pOB_quote, pM_quote, pMT_colon, pMS_comma, pMS_rbrace, key_metadata, key_title, key_statistics, key_headings, key_links, key_images, key_tables, key_paragraphs, key_enhancementApplied, skipWs_space, skipWs_quote, skipWs_lbrace, skipWs_rbrace, skipWs_colon, skipWs_comma, skipWs_t, skipWs_f, skipWs_natToDec, parseStrBody_strLit, digitVal_comma, digitVal_rbrace]
    try simp only [show f + 7 = f + 6 + 1 from rfl]
    try simp only [pv_step, pvC_quote, pvC_lbrace, pvC_false, pvC_true, pvC_num, pOB_quote, pM_quote, pMT_colon, pMS_comma, pMS_rbrace, key_metadata, key_title, key_statistics, key_headings, key_links, key_images, key_tables, key_paragraphs, key_enhancementApplied, skipWs_space, skipWs_quote, skipWs_lbrace, skipWs_rbrace, skipWs_colon, skipWs_comma, skipWs_t, skipWs_f, skipWs_natToDec, parseStrBody_strLit, digitVal_comma, digitVal_rbrace]
    try simp only [show f + 6 = f + 5 + 1 from rfl]
    try simp only [pv_step, pvC_quote, pvC_lbrace, pvC_false, pvC_true, pvC_num, pOB_quote, pM_quote, pMT_colon, pMS_comma, pMS_rbrace, key_metadata, key_title, key_statistics, key_headings, key_links, key_images, key_tables, key_paragraphs, key_enhancementApplied, skipWs_space, skipWs_quote, skipWs_lbrace, skipWs_rbrace, skipWs_colon, skipWs_comma, skipWs_t, skipWs_f, skipWs_natToDec, parseStrBody_strLit, digitVal_comma, digitVal_rbrace]
    try simp only [show f + 5 = f + 4 + 1 from rfl]
    try simp only [pv_step, pvC_quote, pvC_lbrace, pvC_false, pvC_true, pvC_num, pOB_quote, pM_quote, pMT_colon, pMS_comma, pMS_rbrace, key_metadata, key_title, key_statistics, key_headings, key_links, key_images, key_tables, key_paragraphs, key_enhancementApplied, skipWs_space, skipWs_quote, skipWs_lbrace, skipWs_rbrace, skipWs_colon, skipWs_comma, skipWs_t, skipWs_f, skipWs_natToDec, parseStrBody_strLit, digitVal_comma, digitVal_rbrace]
    try simp only [show f + 4 = f + 3 + 1 from rfl]
    try simp only [pv_step, pvC_quote, pvC_lbrace, pvC_false, pvC_true, pvC_num, pOB_quote, pM_quote, pMT_colon, pMS_comma, pMS_rbrace, key_metadata, key_title, key_statistics, key_headings, key_links, key_images, key_tables, key_paragraphs, key_enhancementApplied, skipWs_space, skipWs_quote, skipWs_lbrace, skipWs_rbrace, skipWs_colon, skipWs_comma, skipWs_t, skipWs_f, skipWs_natToDec, parseStrBody_strLit, digitVal_comma, digitVal_rbrace]
    try simp only [show f + 3 = f + 2 + 1 from rfl]
    try simp only [pv_step, pvC_quote, pvC_lbrace, pvC_false, pvC_true, pvC_num, pOB_quote, pM_quote, pMT_colon, pMS_comma, pMS_rbrace, key_metadata, key_title, key_statistics, key_headings, key_links, key_images, key_tables, key_paragraphs, key_enhancementApplied, skipWs_space, skipWs_quote, skipWs_lbrace, skipWs_rbrace, skipWs_colon, skipWs_comma, skipWs_t, skipWs_f, skipWs_natToDec, parseStrBody_strLit, digitVal_comma, digitVal_rbrace]
    try simp only [show f + 2 = f + 1 + 1 from rfl]
    try simp only [pv_step, pvC_quote, pvC_lbrace, pvC_false, pvC_true, pvC_num, pOB_quote, pM_quote, pMT_colon, pMS_comma, pMS_rbrace, key_metadata, key_title, key_statistics, key_headings, key_links, key_images, key_tables, key_paragraphs, key_enhancementApplied, skipWs_space, skipWs_quote, skipWs_lbrace, skipWs_rbrace, skipWs_colon, skipWs_comma, skipWs_t, skipWs_f, skipWs_natToDec, parseStrBody_strLit, digitVal_comma, digitVal_rbrace]
    try simp only [show f + 1 = f + 0 + 1 from rfl]
    try simp only [pv_step, pvC_quote, pvC_lbrace, pvC_false, pvC_true, pvC_num, pOB_quote, pM_quote, pMT_colon, pMS_comma, pMS_rbrace, key_metadata, key_title, key_statistics, key_headings, key_links, key_images, key_tables, key_paragraphs, key_enhancementApplied, skipWs_space, skipWs_quote, skipWs_lbrace, skipWs_rbrace, skipWs_colon, skipWs_comma, skipWs_t, skipWs_f, skipWs_natToDec, parseStrBody_strLit, digitVal_comma, digitVal_rbrace]
    simp only [jsonOfData, hb]
  | true =>
    have hspine : dumpsDataChars d ++ rest = lbrace :: '\"' :: 'm' :: 'e' :: 't' :: 'a' :: 'd' :: 'a' :: 't' :: 'a' :: '\"' :: ':' :: ' ' :: lbrace :: '\"' :: 't' :: 'i' :: 't' :: 'l' :: 'e' :: '\"' :: ':' :: ' ' :: '\"' :: (escBody d.metadata.title.data ++ ('\"' :: rbrace :: ',' :: ' ' :: '\"' :: 's' :: 't' :: 'a' :: 't' :: 'i' :: 's' :: 't' :: 'i' :: 'c' :: 's' :: '\"' :: ':' :: ' ' :: lbrace :: '\"' :: 'h' :: 'e' :: 'a' :: 'd' :: 'i' :: 'n' :: 'g' :: 's' :: '\"' :: ':' :: ' ' :: (natToDec d.statistics.headings ++ (',' :: ' ' :: '\"' :: 'l' :: 'i' :: 'n' :: 'k' :: 's' :: '\"' :: ':' :: ' ' :: (natToDec d.statistics.links ++ (',' :: ' ' :: '\"' :: 'i' :: 'm' :: 'a' :: 'g' :: 'e' :: 's' :: '\"' :: ':' :: ' ' :: (natToDec d.statistics.images ++ (',' :: ' ' :: '\"' :: 't' :: 'a' :: 'b' :: 'l' :: 'e' :: 's' :: '\"' :: ':' :: ' ' :: (natToDec d.statistics.tables ++ (',' :: ' ' :: '\"' :: 'p' :: 'a' :: 'r' :: 'a' :: 'g' :: 'r' :: 'a' :: 'p' :: 'h' :: 's' :: '\"' :: ':' :: ' ' :: (natToDec d.statistics.paragraphs ++ (rbrace :: ',' :: ' ' :: '\"' :: 'e' :: 'n' :: 'h' :: 'a' :: 'n' :: 'c' :: 'e' :: 'm' :: 'e' :: 'n' :: 't' :: 'A' :: 'p' :: 'p' :: 'l' :: 'i' :: 'e' :: 'd' :: '\"' :: ':' :: ' ' :: 't' :: 'r' :: 'u' :: 'e' :: rbrace :: rest)))))))))))) := by
      simp only [dumpsDataChars, strLitChars, hb, List.append_assoc, List.cons_append,
        List.nil_append]
      rfl
    rw [hspine]
    try simp only [show f + 27 = f + 26 + 1 from rfl]
    try simp only [pv_step, pvC_quote, pvC_lbrace, pvC_false, pvC_true, pvC_num, pOB_quote, pM_quote, pMT_colon, pMS_comma, pMS_rbrace, key_metadata, key_title, key_statistics, key_headings, key_links, key_images, key_tables, key_paragraphs, key_enhancementApplied, skipWs_space, skipWs_quote, skipWs_lbrace, skipWs_rbrace, skipWs_colon, skipWs_comma, skipWs_t, skipWs_f, skipWs_natToDec, parseStrBody_strLit, digitVal_comma, digitVal_rbrace]
    try simp only [show f + 26 = f + 25 + 1 from rfl]
    try simp only [pv_step, pvC_quote, pvC_lbrace, pvC_false, pvC_true, pvC_num, pOB_quote, pM_quote, pMT_colon, pMS_comma, pMS_rbrace, key_metadata, key_title, key_statistics, key_headings, key_links, key_images, key_tables, key_paragraphs, key_enhancementApplied, skipWs_space, skipWs_quote, skipWs_lbrace, skipWs_rbrace, skipWs_colon, skipWs_comma, skipWs_t, skipWs_f, skipWs_natToDec, parseStrBody_strLit, digitVal_comma, digitVal_rbrace]
    try simp only [show f + 25 = f + 24 + 1 from rfl]
    try simp only [pv_step, pvC_quote, pvC_lbrace, pvC_false, pvC_true, pvC_num, pOB_quote, pM_quote, pMT_colon, pMS_comma, pMS_rbrace, key_metadata, key_title, key_statistics, key_headings, key_links, key_images, key_tables, key_paragraphs, key_enhancementApplied, skipWs_space, skipWs_quote, skipWs_lbrace, skipWs_rbrace, skipWs_colon, skipWs_comma, skipWs_t, skipWs_f, skipWs_natToDec, parseStrBody_strLit, digitVal_comma, digitVal_rbrace]
    try simp only [show f + 24 = f + 23 + 1 from rfl]
    try simp only [pv_step, pvC_quote, pvC_lbrace, pvC_false, pvC_true, pvC_num, pOB_quote, pM_quote, pMT_colon, pMS_comma, pMS_rbrace, key_metadata, key_title, key_statistics, key_headings, key_links, key_images, key_tables, key_paragraphs, key_enhancementApplied, skipWs_space, skipWs_quote, skipWs_lbrace, skipWs_rbrace, skipWs_colon, skipWs_comma, skipWs_t, skipWs_f, skipWs_natToDec, parseStrBody_strLit, digitVal_comma, digitVal_rbrace]
    try simp only [show f + 23 = f + 22 + 1 from rfl]
    try simp only [pv_step, pvC_quote, pvC_lbrace, pvC_false, pvC_true, pvC_num, pOB_quote, pM_quote, pMT_colon, pMS_comma, pMS_rbrace, key_metadata, key_title, key_statistics, key_headings, key_links, key_images, key_tables, key_paragraphs, key_enhancementApplied, skipWs_space, skipWs_quote, skipWs_lbrace, skipWs_rbrace, skipWs_colon, skipWs_comma, skipWs_t, skipWs_f, skipWs_natToDec, parseStrBody_strLit, digitVal_comma, digitVal_rbrace]
    try simp only [show f + 22 = f + 21 + 1 from rfl]
    try simp only [pv_step, pvC_quote, pvC_lbrace, pvC_false, pvC_true, pvC_num, pOB_quote, pM_quote, pMT_colon, pMS_comma, pMS_rbrace, key_metadata, key_title, key_statistics, key_headings, key_links, key_images, key_tables, key_paragraphs, key_enhancementApplied, skipWs_space, skipWs_quote, skipWs_lbrace, skipWs_rbrace, skipWs_colon, skipWs_comma, skipWs_t, skipWs_f, skipWs_natToDec, parseStrBody_strLit, digitVal_comma, digitVal_rbrace]
    try simp only [show f + 21 = f + 20 + 1 from rfl]
    try simp only [pv_step, pvC_quote, pvC_lbrace, pvC_false, pvC_true, pvC_num, pOB_quote, pM_quote, pMT_colon, pMS_comma, pMS_rbrace, key_metadata, key_title, key_statistics, key_headings, key_links, key_images, key_tables, key_paragraphs, key_enhancementApplied, skipWs_space, skipWs_quote, skipWs_lbrace, skipWs_rbrace, skipWs_colon, skipWs_comma, skipWs_t, skipWs_f, skipWs_natToDec, parseStrBody_strLit, digitVal_comma, digitVal_rbrace]
    try simp only [show f + 20 = f + 19 + 1 from rfl]
    try simp only [pv_step, pvC_quote, pvC_lbrace, pvC_false, pvC_true, pvC_num, pOB_quote, pM_quote, pMT_colon, pMS_comma, pMS_rbrace, key_metadata, key_title, key_statistics, key_headings, key_links, key_images, key_tables, key_paragraphs, key_enhancementApplied, skipWs_space, skipWs_quote, skipWs_lbrace, skipWs_rbrace, skipWs_colon, skipWs_comma, skipWs_t, skipWs_f, skipWs_natToDec, parseStrBody_strLit, digitVal_comma, digitVal_rbrace]
    try simp only [show f + 19 = f + 18 + 1 from rfl]
    try simp only [pv_step, pvC_quote, pvC_lbrace, pvC_false, pvC_true, pvC_num, pOB_quote, pM_quote, pMT_colon, pMS_comma, pMS_rbrace, key_metadata, key_title, key_statistics, key_headings, key_links, key_images, key_tables, key_paragraphs, key_enhancementApplied, skipWs_space, skipWs_quote, skipWs_lbrace, skipWs_rbrace, skipWs_colon, skipWs_comma, skipWs_t, skipWs_f, skipWs_natToDec, parseStrBody_strLit, digitVal_comma, digitVal_rbrace]
    try simp only [show f + 18 = f + 17 + 1 from rfl]
    try simp only [pv_step, pvC_quote, pvC_lbrace, pvC_false, pvC_true, pvC_num, pOB_quote, pM_quote, pMT_colon, pMS_comma, pMS_rbrace, key_metadata, key_title, key_statistics, key_headings, key_links, key_images, key_tables, key_paragraphs, key_enhancementApplied, skipWs_space, skipWs_quote, skipWs_lbrace, skipWs_rbrace, skipWs_colon, skipWs_comma, skipWs_t, skipWs_f, skipWs_natToDec, parseStrBody_strLit, digitVal_comma, digitVal_rbrace]
    try simp only [show f + 17 = f + 16 + 1 from rfl]
    try simp only [pv_step, pvC_quote, pvC_lbrace, pvC_false, pvC_true, pvC_num, pOB_quote, pM_quote, pMT_colon, pMS_comma, pMS_rbrace, key_metadata, key_title, key_statistics, key_headings, key_links, key_images, key_tables, key_paragraphs, key_enhancementApplied, skipWs_space, skipWs_quote, skipWs_lbrace, skipWs_rbrace, skipWs_colon, skipWs_comma, skipWs_t, skipWs_f, skipWs_natToDec, parseStrBody_strLit, digitVal_comma, digitVal_rbrace]
    try simp only [show f + 16 = f + 15 + 1 from rfl]
    try simp only [pv_step, pvC_quote, pvC_lbrace, pvC_false, pvC_true, pvC_num, pOB_quote, pM_quote, pMT_colon, pMS_comma, pMS_rbrace, key_metadata, key_title, key_statistics, key_headings, key_links, key_images, key_tables, key_paragraphs, key_enhancementApplied, skipWs_space, skipWs_quote, skipWs_lbrace, skipWs_rbrace, skipWs_colon, skipWs_comma, skipWs_t, skipWs_f, skipWs_natToDec, parseStrBody_strLit, digitVal_comma, digitVal_rbrace]
    try simp only [show f + 15 = f + 14 + 1 from rfl]
    try simp only [pv_step, pvC_quote, pvC_lbrace, pvC_false, pvC_true, pvC_num, pOB_quote, pM_quote, pMT_colon, pMS_comma, pMS_rbrace, key_metadata, key_title, key_statistics, key_headings, key_links, key_images, key_tables, key_paragraphs, key_enhancementApplied, skipWs_space, skipWs_quote, skipWs_lbrace, skipWs_rbrace, skipWs_colon, skipWs_comma, skipWs_t, skipWs_f, skipWs_natToDec, parseStrBody_strLit, digitVal_comma, digitVal_rbrace]
    try simp only [show f + 14 = f + 13 + 1 from rfl]
    try simp only [pv_step, pvC_quote, pvC_lbrace, pvC_false, pvC_true, pvC_num, pOB_quote, pM_quote, pMT_colon, pMS_comma, pMS_rbrace, key_metadata, key_title, key_statistics, key_headings, key_links, key_images, key_tables, key_paragraphs, key_enhancementApplied, skipWs_space, skipWs_quote, skipWs_lbrace, skipWs_rbrace, skipWs_colon, skipWs_comma, skipWs_t, skipWs_f, skipWs_natToDec, parseStrBody_strLit, digitVal_comma, digitVal_rbrace]
    try simp only [show f + 13 = f + 12 + 1 from rfl]
    try simp only [pv_step, pvC_quote, pvC_lbrace, pvC_false, pvC_true, pvC_num, pOB_quote, pM_quote, pMT_colon, pMS_comma, pMS_rbrace, key_metadata, key_title, key_statistics, key_headings, key_links, key_images, key_tables, key_paragraphs, key_enhancementApplied, skipWs_space, skipWs_quote, skipWs_lbrace, skipWs_rbrace, skipWs_colon, skipWs_comma, skipWs_t, skipWs_f, skipWs_natToDec, parseStrBody_strLit, digitVal_comma, digitVal_rbrace]
    try simp only [show f + 12 = f + 11 + 1 from rfl]
    try simp only [pv_step, pvC_quote, pvC_lbrace, pvC_false, pvC_true, pvC_num, pOB_quote, pM_quote, pMT_colon, pMS_comma, pMS_rbrace, key_metadata, key_title, key_statistics, key_headings, key_links, key_images, key_tables, key_paragraphs, key_enhancementApplied, skipWs_space, skipWs_quote, skipWs_lbrace, skipWs_rbrace, skipWs_colon, skipWs_comma, skipWs_t, skipWs_f, skipWs_natToDec, parseStrBody_strLit, digitVal_comma, digitVal_rbrace]
    try simp only [show f + 11 = f + 10 + 1 from rfl]
    try simp only [pv_step, pvC_quote, pvC_lbrace, pvC_false, pvC_true, pvC_num, pOB_quote, pM_quote, pMT_colon, pMS_comma, pMS_rbrace, key_metadata, key_title, key_statistics, key_headings, key_links, key_images, key_tables, key_paragraphs, key_enhancementApplied, skipWs_space, skipWs_quote, skipWs_lbrace, skipWs_rbrace, skipWs_colon, skipWs_comma, skipWs_t, skipWs_f, skipWs_natToDec, parseStrBody_strLit, digitVal_comma, digitVal_rbrace]
    try simp only [show f + 10 = f + 9 + 1 from rfl]
    try simp only [pv_step, pvC_quote, pvC_lbrace, pvC_false, pvC_true, pvC_num, pOB_quote, pM_quote, pMT_colon, pMS_comma, pMS_rbrace, key_metadata, key_title, key_statistics, key_headings, key_links, key_images, key_tables, key_paragraphs, key_enhancementApplied, skipWs_space, skipWs_quote, skipWs_lbrace, skipWs_rbrace, skipWs_colon, skipWs_comma, skipWs_t, skipWs_f, skipWs_natToDec, parseStrBody_strLit, digitVal_comma, digitVal_rbrace]
    try simp only [show f + 9 = f + 8 + 1 from rfl]
    try simp only [pv_step, pvC_quote, pvC_lbrace, pvC_false, pvC_true, pvC_num, pOB_quote, pM_quote, pMT_colon, pMS_comma, pMS_rbrace, key_metadata, key_title, key_statistics, key_headings, key_links, key_images, key_tables, key_paragraphs, key_enhancementApplied, skipWs_space, skipWs_quote, skipWs_lbrace, skipWs_rbrace, skipWs_colon, skipWs_comma, skipWs_t, skipWs_f, skipWs_natToDec, parseStrBody_strLit, digitVal_comma, digitVal_rbrace]
    try simp only [show f + 8 = f + 7 + 1 from rfl]
    try simp only [pv_step, pvC_quote, pvC_lbrace, pvC_false, pvC_true, pvC_num, pOB_quote, pM_quote, pMT_colon, pMS_comma, pMS_rbrace, key_metadata, key_title, key_statistics, key_headings, key_links, key_images, key_tables, key_paragraphs, key_enhancementApplied, skipWs_space, skipWs_quote, skipWs_lbrace, skipWs_rbrace, skipWs_colon, skipWs_comma, skipWs_t, skipWs_f, skipWs_natToDec, parseStrBody_strLit, digitVal_comma, digitVal_rbrace]
    try simp only [show f + 7 = f + 6 + 1 from rfl]
    try simp only [pv_step, pvC_quote, pvC_lbrace, pvC_false, pvC_true, pvC_num, pOB_quote, pM_quote, pMT_colon, pMS_comma, pMS_rbrace, key_metadata, key_title, key_statistics, key_headings, key_links, key_images, key_tables, key_paragraphs, key_enhancementApplied, skipWs_space, skipWs_quote, skipWs_lbrace, skipWs_rbrace, skipWs_colon, skipWs_comma, skipWs_t, skipWs_f, skipWs_natToDec, parseStrBody_strLit, digitVal_comma, digitVal_rbrace]
    try simp only [show f + 6 = f + 5 + 1 from rfl]
    try simp only [pv_step, pvC_quote, pvC_lbrace, pvC_false, pvC_true, pvC_num, pOB_quote, pM_quote, pMT_colon, pMS_comma, pMS_rbrace, key_metadata, key_title, key_statistics, key_headings, key_links, key_images, key_tables, key_paragraphs, key_enhancementApplied, skipWs_space, skipWs_quote, skipWs_lbrace, skipWs_rbrace, skipWs_colon, skipWs_comma, skipWs_t, skipWs_f, skipWs_natToDec, parseStrBody_strLit, digitVal_comma, digitVal_rbrace]
    try simp only [show f + 5 = f + 4 + 1 from rfl]
    try simp only [pv_step, pvC_quote, pvC_lbrace, pvC_false, pvC_true, pvC_num, pOB_quote, pM_quote, pMT_colon, pMS_comma, pMS_rbrace, key_metadata, key_title, key_statistics, key_headings, key_links, key_images, key_tables, key_paragraphs, key_enhancementApplied, skipWs_space, skipWs_quote, skipWs_lbrace, skipWs_rbrace, skipWs_colon, skipWs_comma, skipWs_t, skipWs_f, skipWs_natToDec, parseStrBody_strLit, digitVal_comma, digitVal_rbrace]
    try simp only [show f + 4 = f + 3 + 1 from rfl]
    try simp only [pv_step, pvC_quote, pvC_lbrace, pvC_false, pvC_true, pvC_num, pOB_quote, pM_quote, pMT_colon, pMS_comma, pMS_rbrace, key_metadata, key_title, key_statistics, key_headings, key_links, key_images, key_tables, key_paragraphs, key_enhancementApplied, skipWs_space, skipWs_quote, skipWs_lbrace, skipWs_rbrace, skipWs_colon, skipWs_comma, skipWs_t, skipWs_f, skipWs_natToDec, parseStrBody_strLit, digitVal_comma, digitVal_rbrace]
    try simp only [show f + 3 = f + 2 + 1 from rfl]
    try simp only [pv_step, pvC_quote, pvC_lbrace, pvC_false, pvC_true, pvC_num, pOB_quote, pM_quote, pMT_colon, pMS_comma, pMS_rbrace, key_metadata, key_title, key_statistics, key_headings, key_links, key_images, key_tables, key_paragraphs, key_enhancementApplied, skipWs_space, skipWs_quote, skipWs_lbrace, skipWs_rbrace, skipWs_colon, skipWs_comma, skipWs_t, skipWs_f, skipWs_natToDec, parseStrBody_strLit, digitVal_comma, digitVal_rbrace]
    try simp only [show f + 2 = f + 1 + 1 from rfl]
    try simp only [pv_step, pvC_quote, pvC_lbrace, pvC_false, pvC_true, pvC_num, pOB_quote, pM_quote, pMT_colon, pMS_comma, pMS_rbrace, key_metadata, key_title, key_statistics, key_headings, key_links, key_images, key_tables, key_paragraphs, key_enhancementApplied, skipWs_space, skipWs_quote, skipWs_lbrace, skipWs_rbrace, skipWs_colon, skipWs_comma, skipWs_t, skipWs_f, skipWs_natToDec, parseStrBody_strLit, digitVal_comma, digitVal_rbrace]
    try simp only [show f + 1 = f + 0 + 1 from rfl]
    try simp only [pv_step, pvC_quote, pvC_lbrace, pvC_false, pvC_true, pvC_num, pOB_quote, pM_quote, pMT_colon, pMS_comma, pMS_rbrace, key_metadata, key_title, key_statistics, key_headings, key_links, key_images, key_tables, key_paragraphs, key_enhancementApplied, skipWs_space, skipWs_quote, skipWs_lbrace, skipWs_rbrace, skipWs_colon, skipWs_comma, skipWs_t, skipWs_f, skipWs_natToDec, parseStrBody_strLit, digitVal_comma, digitVal_rbrace]
    simp only [jsonOfData, hb]

theorem json_loads_dumps (d : ExtractionData) :
    json_loads (dumpsData d) = some (jsonOfData d) := by
  have h := parseValue_dumps (8 * (dumpsDataChars d).length + 13) d []
  rw [List.append_nil] at h
  unfold json_loads
  rw [show (dumpsData d).data = dumpsDataChars d from rfl]
  rw [show 8 * (dumpsDataChars d).length + 40
        = 8 * (dumpsDataChars d).length + 13 + 27 from by omega]
  rw [h]
  rfl

theorem C10_embedded_json_roundtrips (doc out : Doc) (data : ExtractionData)
    (h : process_with_basic_tree doc = some (out, data)) :
    textOf (script_tag data) = dumpsData data ∧
    json_loads (textOf (script_tag data)) = some (jsonOfData data) := by
  have h1 : textOf (script_tag data) = dumpsData data := by
    simp [textOf, textOfList, script_tag]
  exact ⟨h1, h1 ▸ json_loads_dumps data⟩

theorem C10_embedded_json_roundtrips_witness :
    process_with_basic_tree statsDoc = some (statsOut, statsData) ∧
    (textOf (script_tag statsData) = dumpsData statsData ∧
     json_loads (textOf (script_tag statsData)) = some (jsonOfData statsData)) :=
  ⟨rfl, C10_embedded_json_roundtrips statsDoc statsOut statsData rfl⟩


end HtmlExtractor
